import Mathlib

/-!
# goosnapi: state-vector decoding and bounding-box validation

A shallow embedding of `pkg/openskyapi/openskyapi.go` and `goosnapi.go`.

* Go `float64` values are modelled by `F64`: the finite values are carried as
  rationals (every finite float64 is one), next to the two infinities and NaN.
  The comparison operators follow IEEE 754: every ordered comparison with NaN
  is false.
* A Go `interface{}` slot is modelled by `Value`, one constructor per dynamic
  type the decoders distinguish.
* A formatted `error` is modelled by the format that produced it together with
  its arguments, in the order they are passed to `fmt.Errorf`.
-/

/-! ## float64 -/

/-- Values of Go's `float64`. Both zeroes are `finite 0` (they compare equal). -/
inductive F64 where
  | nan : F64
  | negInf : F64
  | posInf : F64
  | finite (q : ℚ) : F64
  deriving DecidableEq

namespace F64

/-- Go `a < b` on float64. -/
def lt : F64 → F64 → Bool
  | nan, _ => false
  | _, nan => false
  | negInf, negInf => false
  | negInf, _ => true
  | _, negInf => false
  | posInf, _ => false
  | finite _, posInf => true
  | finite a, finite b => decide (a < b)

/-- Go `a == b` on float64. -/
def eq : F64 → F64 → Bool
  | nan, _ => false
  | _, nan => false
  | negInf, negInf => true
  | posInf, posInf => true
  | finite a, finite b => decide (a = b)
  | _, _ => false

/-- Go `a > b` on float64. -/
def gt (a b : F64) : Bool := lt b a

/-- Go `a <= b` on float64. -/
def le (a b : F64) : Bool := lt a b || eq a b

/-- Go `a >= b` on float64. -/
def ge (a b : F64) : Bool := lt b a || eq a b

/-- The value is a NaN. -/
def isNaN : F64 → Bool
  | nan => true
  | _ => false

end F64

/-- Go `int64(f)` and, on a 64-bit target, `int(f)`: the fraction is discarded
(truncation toward zero). The language leaves the result open when the
truncated value does not fit; the amd64 conversion instruction then yields
the smallest int64, which is what this definition returns. -/
def F64.toInt : F64 → Int
  | .finite q =>
    let t := Int.tdiv q.num q.den
    if -2 ^ 63 ≤ t ∧ t < 2 ^ 63 then t else -2 ^ 63
  | _ => -2 ^ 63

/-- Round a natural number to the nearest one with a 53-bit significand, ties
to even: the magnitude of Go `float64(n)` for an int of magnitude `m`. -/
def roundNat53 (m : Nat) : Nat :=
  let bits := Nat.size m
  if bits ≤ 53 then m
  else
    let e := bits - 53
    let q := m / 2 ^ e
    let r := m % 2 ^ e
    let half := 2 ^ (e - 1)
    let q1 := if half < r ∨ (r = half ∧ q % 2 = 1) then q + 1 else q
    q1 * 2 ^ e

/-- Go `float64(n)` for an `int` n (64-bit, so the result is always finite). -/
def Int.toF64 (n : Int) : F64 :=
  if 0 ≤ n then .finite (roundNat53 n.natAbs : ℚ) else .finite (-(roundNat53 n.natAbs : ℚ))

/-! ## time.Time -/

/-- What the decoders observe of a Go `time.Time`: the Unix seconds, the
nanoseconds within the second, and whether the location is set to Local (as
`time.Unix` does) or left unset (as in the zero value). -/
structure Time where
  unixSec : Int
  nsec : Int
  isLocal : Bool
  deriving DecidableEq

/-- The zero value `time.Time{}`: January 1, year 1, 00:00:00 UTC. -/
def Time.zero : Time := ⟨-62135596800, 0, false⟩

/-- Library function `time.Unix(sec, nsec)`. -/
def Time.Unix (sec nsec : Int) : Time :=
  if nsec < 0 ∨ 1000000000 ≤ nsec then
    let n := Int.tdiv nsec 1000000000
    let sec1 := sec + n
    let nsec1 := nsec - n * 1000000000
    if nsec1 < 0 then ⟨sec1 - 1, nsec1 + 1000000000, true⟩ else ⟨sec1, nsec1, true⟩
  else ⟨sec, nsec, true⟩

/-! ## interface{} slots -/

/-- The dynamic value held by one `interface{}` slot of a raw record. -/
inductive Value where
  /-- The nil interface (a JSON null). -/
  | null : Value
  | string (s : String) : Value
  | bool (b : Bool) : Value
  | float64 (f : F64) : Value
  | int (n : Int) : Value
  /-- A `[]float64`. -/
  | float64Slice (a : List F64) : Value
  /-- A `[]interface{}`, what encoding/json delivers for a JSON array. -/
  | slice (a : List Value) : Value
  /-- A value of any other dynamic type, e.g. a `map[string]interface{}`. -/
  | other (tag : Nat) : Value

namespace openskyapi

/-! ## BoundBox -/

/-- The Go struct `BoundBox` of package openskyapi. -/
structure BoundBox where
  MinLatitude : F64
  MaxLatitude : F64
  MinLongitude : F64
  MaxLongitude : F64
  deriving DecidableEq

/-- The four `fmt.Errorf` calls of `BoundBox.Validate`, each with its two
arguments in order. -/
inductive ValidateError where
  /-- Format "MinLongitude is greater than MaxLongitude. MinLongitude: %v, MaxLongitude: %v" -/
  | longitudeOrder (minLongitude maxLongitude : F64)
  /-- Format "MinLatitude is greater than MaxLatitude. MinLatitude: %v, MaxLatitude: %v" -/
  | latitudeOrder (minLatitude maxLatitude : F64)
  /-- Format "Longitude is out of range (-180, 180). MinLongitude: %v, MaxLongitude: %v" -/
  | longitudeRange (minLongitude maxLongitude : F64)
  /-- Format "Latitude is out of range (-90, 90). MinLatitude: %v, MaxLatitude: %v" -/
  | latitudeRange (minLatitude maxLatitude : F64)
  deriving DecidableEq

/-- The method `BoundBox.Validate`; `none` is the nil error. -/
def BoundBox.Validate (b : BoundBox) : Option ValidateError :=
  if F64.ge b.MinLongitude b.MaxLongitude then
    some (.longitudeOrder b.MinLongitude b.MaxLongitude)
  else if F64.gt b.MinLatitude b.MaxLatitude then
    some (.latitudeOrder b.MinLatitude b.MaxLatitude)
  else if F64.gt b.MinLongitude (.finite 180) || F64.gt b.MaxLongitude (.finite 180)
      || F64.lt b.MinLongitude (.finite (-180)) || F64.lt b.MaxLongitude (.finite (-180)) then
    some (.longitudeRange b.MinLongitude b.MaxLongitude)
  else if F64.gt b.MinLatitude (.finite 90) || F64.gt b.MaxLatitude (.finite 90)
      || F64.lt b.MinLatitude (.finite (-90)) || F64.lt b.MaxLatitude (.finite (-90)) then
    some (.latitudeRange b.MinLatitude b.MaxLatitude)
  else
    none

/-! ## Raw and structured responses -/

/-- The Go struct `NotStructuredOpenSkyResponse`. -/
structure NotStructuredOpenSkyResponse where
  Time : Int
  States : List (List Value)

/-- The Go struct `State` of package openskyapi. -/
structure State where
  ICAO24 : String
  CallSign : String
  OriginCountry : String
  TimePosition : Int
  LastContact : Int
  Longitude : F64
  Latitude : F64
  GeoAltitude : F64
  OnGround : Bool
  Velocity : F64
  Heading : F64
  VerticalRate : F64
  BarometricAltitude : F64
  Squawk : String
  Spi : Bool
  PositionSource : String
  deriving DecidableEq

/-- The Go struct `StructuredOpenSkyResponse`. -/
structure StructuredOpenSkyResponse where
  Time : Time
  States : List State
  deriving DecidableEq

/-- The package-level map `PositionSource`, as its key/value pairs. -/
def PositionSource : List (Int × String) :=
  [(0, "ADSB"), (1, "ASTERIX"), (2, "MLAT"), (3, "FLARM")]

/-- Indexing a `map[int]string`: the zero value `""` for a missing key. -/
def mapIndex (m : List (Int × String)) (k : Int) : String :=
  (m.lookup k).getD ""

/-- The function `validateString`. -/
def validateString : Value → String
  | .string f => f
  | .int f => toString f
  | _ => ""

/-- The function `validateFloat64`. -/
def validateFloat64 : Value → F64
  | .float64 f => f
  | .int f => Int.toF64 f
  | _ => .finite 0

/-- The function `validateBool`. -/
def validateBool : Value → Bool
  | .bool f => f
  | _ => false

/-- The composite literal `State{...}` in the loop body of
`StructureRawResponse`; `none` is the run-time panic of an index expression
`state[k]` that is out of range. -/
def structureState (state : List Value) : Option State :=
  match state[0]? with
  | none => none
  | some s0 =>
  match state[1]? with
  | none => none
  | some s1 =>
  match state[2]? with
  | none => none
  | some s2 =>
  match state[3]? with
  | none => none
  | some s3 =>
  match state[4]? with
  | none => none
  | some s4 =>
  match state[5]? with
  | none => none
  | some s5 =>
  match state[6]? with
  | none => none
  | some s6 =>
  match state[7]? with
  | none => none
  | some s7 =>
  match state[8]? with
  | none => none
  | some s8 =>
  match state[9]? with
  | none => none
  | some s9 =>
  match state[10]? with
  | none => none
  | some s10 =>
  match state[11]? with
  | none => none
  | some s11 =>
  match state[13]? with
  | none => none
  | some s13 =>
  match state[14]? with
  | none => none
  | some s14 =>
  match state[15]? with
  | none => none
  | some s15 =>
  match state[16]? with
  | none => none
  | some s16 =>
  some {
    ICAO24 := validateString s0
    CallSign := validateString s1
    OriginCountry := validateString s2
    TimePosition := (validateFloat64 s3).toInt
    LastContact := (validateFloat64 s4).toInt
    Longitude := validateFloat64 s5
    Latitude := validateFloat64 s6
    GeoAltitude := validateFloat64 s7
    OnGround := validateBool s8
    Velocity := validateFloat64 s9
    Heading := validateFloat64 s10
    VerticalRate := validateFloat64 s11
    BarometricAltitude := validateFloat64 s13
    Squawk := validateString s14
    Spi := validateBool s15
    PositionSource := mapIndex PositionSource (validateFloat64 s16).toInt }

/-- The `for ... range nsr.States` loop of `StructureRawResponse`, `acc` being
`sr.States` so far. The deferred `recover` calls run when the function
returns, not at the end of an iteration: a panic in the loop body unwinds the
loop, the most recently deferred call recovers it, and the function returns
the named result as it stands. -/
def structureLoop : List (List Value) → List State → List State
  | [], acc => acc
  | state :: rest, acc =>
    match structureState state with
    | none => acc
    | some ss => structureLoop rest (acc ++ [ss])

/-- The function `StructureRawResponse`. -/
def StructureRawResponse (nsr : NotStructuredOpenSkyResponse) : StructuredOpenSkyResponse :=
  { Time := Time.Unix nsr.Time 0
    States := structureLoop nsr.States [] }

end openskyapi

namespace goosnapi

/-! ## Package main (goosnapi.go) -/

/-- The Go struct `NSOpenSkyResponse`. -/
structure NSOpenSkyResponse where
  Time : Int
  States : List (List Value)

/-- The Go struct `State` of package main; a pointer field is an `Option`,
`none` being the nil pointer. `PositionSource` is the named int type. -/
structure State where
  ICAO24 : String
  CallSign : String
  OriginCountry : String
  TimePosition : Option Time
  LastContact : Time
  Longitude : Option F64
  Latitude : Option F64
  GeoAltitude : Option F64
  OnGround : Bool
  Velocity : Option F64
  Heading : Option F64
  VerticalRate : Option F64
  Sensors : List Int
  BarometricAltitude : Option F64
  Squawk : String
  Spi : Bool
  PositionSource : Int
  deriving DecidableEq

/-- The zero value of `State`. -/
def State.zero : State :=
  { ICAO24 := "", CallSign := "", OriginCountry := "", TimePosition := none,
    LastContact := Time.zero, Longitude := none, Latitude := none, GeoAltitude := none,
    OnGround := false, Velocity := none, Heading := none, VerticalRate := none,
    Sensors := [], BarometricAltitude := none, Squawk := "", Spi := false,
    PositionSource := 0 }

/-- The Go struct `OpenSkyResponse`. -/
structure OpenSkyResponse where
  Time : Int
  States : List State
  deriving DecidableEq

/-- The errors built by the two conversion helpers. -/
inductive ConvError where
  /-- Format "couldn't parse %v as number". -/
  | notNumber (val : Value)
  /-- Format "couldn't parse %v as number array". -/
  | notNumberArray (val : Value)

/-- The errors built by `parseState`, each with the arguments of its
`fmt.Errorf` call in order. -/
inductive ParseError where
  /-- Format "invalid state object at position %v: response contains %v values, expected 17". -/
  | stateObject (i : Int) (len : Nat)
  /-- Format "invalid icao24 value at position %d: %v". -/
  | icao24 (i : Int) (val : Value)
  /-- Format "invalid callsign value at position %d: %v". -/
  | callsign (i : Int) (val : Value)
  /-- Format "invalid origin_country value at position %d: %v". -/
  | originCountry (i : Int) (val : Value)
  /-- Format "invalid time_position value at position %d: %w". -/
  | timePosition (i : Int) (cause : ConvError)
  /-- Format "invalid last_contact value at position %d: %w". -/
  | lastContact (i : Int) (cause : ConvError)
  /-- Format "invalid on_ground value at position %d: %v". -/
  | onGround (i : Int) (val : Value)
  /-- Format "invalid sensors value at position %d: %w". -/
  | sensors (i : Int) (cause : ConvError)
  /-- Format "invalid squawk value at position %d: %v". -/
  | squawk (i : Int) (val : Value)
  /-- Format "invalid spi value at position %d: %v". -/
  | spi (i : Int) (val : Value)
  /-- Format "invalid position_source value at position %d: %w". -/
  | positionSource (i : Int) (cause : ConvError)

/-- The function `jsonNumberToInt`. -/
def jsonNumberToInt : Value → Except ConvError Int
  | .float64 fVal => .ok fVal.toInt
  | val => .error (.notNumber val)

/-- The function `jsonNumberArrayToIntArray`. -/
def jsonNumberArrayToIntArray : Value → Except ConvError (List Int)
  | .float64Slice aVal => .ok (aVal.map F64.toInt)
  | val => .error (.notNumberArray val)

/-- The type assertion `v.(string)` with its ok flag. -/
def assertString : Value → Option String
  | .string x => some x
  | _ => none

/-- The type assertion `v.(bool)` with its ok flag. -/
def assertBool : Value → Option Bool
  | .bool x => some x
  | _ => none

/-- The type assertion `v.(float64)` with its ok flag. -/
def assertFloat64 : Value → Option F64
  | .float64 x => some x
  | _ => none

/-- The test `v != nil` on an interface value. -/
def notNil : Value → Bool
  | .null => false
  | _ => true

/-- A pointer to the asserted float64, or to `float64(0)` when the assertion
fails (the `else` branch of slots 7, 11 and 13). -/
def floatOrZero (v : Value) : Option F64 :=
  match assertFloat64 v with
  | some x => some x
  | none => some (.finite 0)

/-- The body of `parseState` after the length check, on the seventeen slots
it reads: the decoded `State`, or the error of the first failing step. -/
def parseSlots (i : Int) (s0 s1 s2 s3 s4 s5 s6 s7 s8 s9 s10 s11 s12 s13 s14 s15 s16 : Value) :
    Except ParseError State := do
  let icao24 ← (match assertString s0 with
    | some x => .ok x
    | none => .error (.icao24 i s0))
  let callsign ← (if notNil s1 then
      match assertString s1 with
      | some x => .ok x
      | none => .error (.callsign i s1)
    else .ok "")
  let originCountry ← (match assertString s2 with
    | some x => .ok x
    | none => .error (.originCountry i s2))
  let timePosition ← (if notNil s3 then
      match jsonNumberToInt s3 with
      | .ok rawTimePosition => .ok (some (Time.Unix rawTimePosition 0))
      | .error e => .error (.timePosition i e)
    else .ok none)
  let lastContact ← (match jsonNumberToInt s4 with
    | .ok x => .ok x
    | .error e => .error (.lastContact i e))
  let lon := assertFloat64 s5
  let lat := assertFloat64 s6
  let baroAltitude := floatOrZero s7
  let onGround ← (match assertBool s8 with
    | some x => .ok x
    | none => .error (.onGround i s8))
  let velocity := assertFloat64 s9
  let trueTrack := assertFloat64 s10
  let verticalRate := floatOrZero s11
  let sensors ← (if notNil s12 then
      match jsonNumberArrayToIntArray s12 with
      | .ok a => .ok a
      | .error e => .error (.sensors i e)
    else .ok [])
  let geoAltitude := floatOrZero s13
  let squawk ← (if notNil s14 then
      match assertString s14 with
      | some x => .ok x
      | none => .error (.squawk i s14)
    else .ok "")
  let spi ← (match assertBool s15 with
    | some x => .ok x
    | none => .error (.spi i s15))
  let positionSource ← (match jsonNumberToInt s16 with
    | .ok x => .ok x
    | .error e => .error (.positionSource i e))
  pure {
    ICAO24 := icao24
    CallSign := callsign
    OriginCountry := originCountry
    TimePosition := timePosition
    LastContact := Time.Unix lastContact 0
    Longitude := lon
    Latitude := lat
    GeoAltitude := geoAltitude
    OnGround := onGround
    Velocity := velocity
    Heading := trueTrack
    VerticalRate := verticalRate
    Sensors := sensors
    BarometricAltitude := baroAltitude
    Squawk := squawk
    Spi := spi
    PositionSource := positionSource }

/-- The function `parseState`: the pair of named results `(state, err)`; a
`none` error is nil. Every early return leaves `state` at its zero value. -/
def parseState (s : List Value) (i : Int) : State × Option ParseError :=
  if s.length < 17 then
    (State.zero, some (.stateObject i s.length))
  else
    -- here 17 ≤ len(s): every index below 17 is in range and getD returns the slot
    match parseSlots i (s.getD 0 .null) (s.getD 1 .null) (s.getD 2 .null) (s.getD 3 .null)
        (s.getD 4 .null) (s.getD 5 .null) (s.getD 6 .null) (s.getD 7 .null) (s.getD 8 .null)
        (s.getD 9 .null) (s.getD 10 .null) (s.getD 11 .null) (s.getD 12 .null)
        (s.getD 13 .null) (s.getD 14 .null) (s.getD 15 .null) (s.getD 16 .null) with
    | .ok state => (state, none)
    | .error err => (State.zero, some err)

/-- The `for i, unstructureState := range ...` loop of
`parseNonStructuredResponseToStructureResponse`: `i` is the index of the next
record, `acc` the `States` of the structured response so far, `out` the
errors printed so far. -/
def parseLoop : List (List Value) → Int → List State → List ParseError →
    List State × List ParseError
  | [], _, acc, out => (acc, out)
  | unstructureState :: rest, i, acc, out =>
    let r := parseState unstructureState i
    let out1 := match r.2 with
      | some err => out ++ [err]
      | none => out
    parseLoop rest (i + 1) (acc ++ [r.1]) out1

/-- The function `parseNonStructuredResponseToStructureResponse`: the
structured response after the call (it is updated through the pointer) and the
errors printed during it. -/
def parseNonStructuredResponseToStructureResponse (nonStructuredOpenSkyResponse : NSOpenSkyResponse)
    (structuredOpenSkyResponse : OpenSkyResponse) : OpenSkyResponse × List ParseError :=
  let r := parseLoop nonStructuredOpenSkyResponse.States 0 structuredOpenSkyResponse.States []
  ({ Time := nonStructuredOpenSkyResponse.Time, States := r.1 }, r.2)

end goosnapi

/-! ## Reading of the validation rules -/

namespace openskyapi

/-- The four rules of the bounding-box validator, in their documented order. -/
inductive Rule where
  | longitudeOrder
  | latitudeOrder
  | longitudeRange
  | latitudeRange
  deriving DecidableEq

/-- Position of a rule in the documented order. -/
def Rule.rank : Rule → Nat
  | .longitudeOrder => 1
  | .latitudeOrder => 2
  | .longitudeRange => 3
  | .latitudeRange => 4

/-- When a box violates a rule: its minimum longitude is greater than or equal
to its maximum; its minimum latitude is greater than its maximum; one of its
longitudes is above 180 or below -180; one of its latitudes is above 90 or
below -90. -/
def Rule.violated : Rule → BoundBox → Bool
  | .longitudeOrder, b => F64.ge b.MinLongitude b.MaxLongitude
  | .latitudeOrder, b => F64.gt b.MinLatitude b.MaxLatitude
  | .longitudeRange, b =>
    F64.gt b.MinLongitude (.finite 180) || F64.lt b.MinLongitude (.finite (-180))
      || F64.gt b.MaxLongitude (.finite 180) || F64.lt b.MaxLongitude (.finite (-180))
  | .latitudeRange, b =>
    F64.gt b.MinLatitude (.finite 90) || F64.lt b.MinLatitude (.finite (-90))
      || F64.gt b.MaxLatitude (.finite 90) || F64.lt b.MaxLatitude (.finite (-90))

/-- The failure that names a rule and carries the two values of its axis. -/
def Rule.report : Rule → BoundBox → ValidateError
  | .longitudeOrder, b => .longitudeOrder b.MinLongitude b.MaxLongitude
  | .latitudeOrder, b => .latitudeOrder b.MinLatitude b.MaxLatitude
  | .longitudeRange, b => .longitudeRange b.MinLongitude b.MaxLongitude
  | .latitudeRange, b => .latitudeRange b.MinLatitude b.MaxLatitude

/-- A coordinate lies in the closed interval from `lo` to `hi`. -/
def inClosedRange (lo hi : ℚ) (x : F64) : Bool :=
  F64.le (.finite lo) x && F64.le x (.finite hi)

/-- The box whose four coordinates are 0. -/
def zeroBox : BoundBox :=
  { MinLatitude := .finite 0, MaxLatitude := .finite 0,
    MinLongitude := .finite 0, MaxLongitude := .finite 0 }

/-- The box used as the valid case of `TestBoundBoxValidate`. -/
def coverAreaTestValid : BoundBox :=
  { MinLatitude := .finite (-40110403 / 1000000), MaxLatitude := .finite (-24267845 / 1000000),
    MinLongitude := .finite (139147805 / 1000000), MaxLongitude := .finite (154590532 / 1000000) }

end openskyapi

/-! ## Numbers and records used in the statements -/

/-- A numeric slot as the decoders can receive it: a `float64` (what
encoding/json delivers) or an `int` (what the Go test literals are). -/
inductive Number where
  | ofFloat (f : F64)
  | ofInt (n : Int)

/-- The slot holding a number. -/
def Number.toValue : Number → Value
  | .ofFloat f => .float64 f
  | .ofInt n => .int n

/-- The number as a float64: itself, or the nearest float64 of an int. -/
def Number.toF64 : Number → F64
  | .ofFloat f => f
  | .ofInt n => Int.toF64 n

/-- The slot is the integer `n`, as an `int` or as an integral `float64`. -/
def Value.isInteger (v : Value) (n : Int) : Prop :=
  v = .int n ∨ v = .float64 (.finite (n : ℚ))

/-- The record of `TestParseRawState`, with the real-valued slots replaced by
the numbers given (the test uses 144.7732, -37.9141, 403.86, 50.46, 357.66,
-0.65 and 312.42) and slot 3 by `timePosition`. -/
def testRecord (timePosition : Value) (lon lat geo vel hdg vr baro : F64) : List Value :=
  [.string "7c7f38", .string "ZEY     ", .string "Australia", timePosition, .int 1643623948,
   .float64 lon, .float64 lat, .float64 geo, .bool false, .float64 vel, .float64 hdg,
   .float64 vr, .null, .float64 baro, .string "2502", .bool false, .int 3]

/-- The record of `TestParseRawState` with the float64 1.5 in slot 3 and
whole numbers in the real-valued slots. -/
def fractionalRecord : List Value :=
  testRecord (.float64 (.finite (3 / 2))) (.finite 144) (.finite (-37)) (.finite 403)
    (.finite 50) (.finite 357) (.finite 0) (.finite 312)

/-- The record of `TestParseRawState` with whole numbers in the real-valued
slots. -/
def wholeRecord : List Value :=
  testRecord (.int 1643623948) (.finite 144) (.finite (-37)) (.finite 403)
    (.finite 50) (.finite 357) (.finite 0) (.finite 312)

/-- The record of `TestParseRawState` as encoding/json delivers it (every
number a float64), with slot 0 replaced by `icao24`. -/
def jsonRecord (icao24 : Value) : List Value :=
  [icao24, .string "ZEY     ", .string "Australia", .float64 (.finite 1643623948),
   .float64 (.finite 1643623948), .float64 (.finite 144), .float64 (.finite (-37)),
   .float64 (.finite 403), .bool false, .float64 (.finite 50), .float64 (.finite 357),
   .float64 (.finite 0), .null, .float64 (.finite 312), .string "2502", .bool false,
   .float64 (.finite 3)]

/-- The slot is null. -/
def Value.isNull : Value → Bool
  | .null => true
  | _ => false

/-- The slot is a string. -/
def Value.isString : Value → Bool
  | .string _ => true
  | _ => false

/-- The slot is a boolean. -/
def Value.isBool : Value → Bool
  | .bool _ => true
  | _ => false

/-- The slot is a number as encoding/json delivers it, a float64. -/
def Value.isFloat64 : Value → Bool
  | .float64 _ => true
  | _ => false

/-- The slot is what `jsonNumberArrayToIntArray` accepts as a number array,
a `[]float64`. -/
def Value.isFloat64Slice : Value → Bool
  | .float64Slice _ => true
  | _ => false

/-! ## The accepted path of parseState -/

namespace goosnapi

/-- The Sensors that `parseState` builds from slot 12 when it accepts it: the
converted elements of a `[]float64`, the nil slice for a nil slot. -/
def acceptedSensors : Value → List Int
  | .float64Slice a => a.map F64.toInt
  | _ => []

/-- The State that `parseState` builds from the seventeen slots when no check
fails, each field read off its slot as the accepting path of the code does. -/
def acceptedState (s0 s1 s2 s3 s4 s5 s6 s7 s8 s9 s10 s11 s12 s13 s14 s15 s16 : Value) : State :=
  { ICAO24 := (assertString s0).getD ""
    CallSign := (assertString s1).getD ""
    OriginCountry := (assertString s2).getD ""
    TimePosition := (assertFloat64 s3).map (fun f => Time.Unix f.toInt 0)
    LastContact := Time.Unix ((assertFloat64 s4).getD (.finite 0)).toInt 0
    Longitude := assertFloat64 s5
    Latitude := assertFloat64 s6
    GeoAltitude := floatOrZero s13
    OnGround := (assertBool s8).getD false
    Velocity := assertFloat64 s9
    Heading := assertFloat64 s10
    VerticalRate := floatOrZero s11
    Sensors := acceptedSensors s12
    BarometricAltitude := floatOrZero s7
    Squawk := (assertString s14).getD ""
    Spi := (assertBool s15).getD false
    PositionSource := ((assertFloat64 s16).getD (.finite 0)).toInt }

/-- The accepted State of a record, read from its first seventeen slots. -/
def acceptedStateOf (s : List Value) : State :=
  acceptedState (s.getD 0 .null) (s.getD 1 .null) (s.getD 2 .null) (s.getD 3 .null)
    (s.getD 4 .null) (s.getD 5 .null) (s.getD 6 .null) (s.getD 7 .null) (s.getD 8 .null)
    (s.getD 9 .null) (s.getD 10 .null) (s.getD 11 .null) (s.getD 12 .null)
    (s.getD 13 .null) (s.getD 14 .null) (s.getD 15 .null) (s.getD 16 .null)

end goosnapi

/-! ## Vocabulary of the later statements -/

/-- The slot is a number for `validateFloat64`: a float64 or an int. -/
def Value.isNumber : Value → Bool
  | .float64 _ => true
  | .int _ => true
  | _ => false

/-- A pointer field follows the default-on-absent policy for its slot: it
points to the slot's value when the slot is a float64 and to 0.0 otherwise. -/
def defaultsToZero (slot : Value) (field : Option F64) : Prop :=
  (∀ f, slot = .float64 f → field = some f) ∧
  (slot.isFloat64 = false → field = some (.finite 0))

/-- A pointer field is optional for its slot: it points to the slot's value
when the slot is a float64 and is nil otherwise. -/
def unsetWhenAbsent (slot : Value) (field : Option F64) : Prop :=
  (∀ f, slot = .float64 f → field = some f) ∧
  (slot.isFloat64 = false → field = none)

/-- The sensor list [1234, 5678] as encoding/json delivers a JSON array of
numbers: a `[]interface{}` holding float64 values. -/
def sensorsFromJson : Value :=
  .slice [.float64 (.finite 1234), .float64 (.finite 5678)]

/-- The JSON-decoded test record with the sensor list [1234, 5678] in slot 12. -/
def sensorsRecord : List Value :=
  (jsonRecord (.string "7c7f38")).set 12 sensorsFromJson

/-- The JSON-decoded test record followed by an eighteenth slot. -/
def longRecord : List Value :=
  jsonRecord (.string "7c7f38") ++ [.null]

/-- The JSON-decoded test record with null in slots 5, 7, 10 and 13. -/
def absentRecord : List Value :=
  ((((jsonRecord (.string "7c7f38")).set 5 .null).set 7 .null).set 10 .null).set 13 .null

/-- The record of `TestParseRawState` with null (not received) in slot 5. -/
def nullLongitudeRecord : List Value := wholeRecord.set 5 .null

/-- The record of `TestParseRawState` with the reading 0.0 in slot 5. -/
def zeroLongitudeRecord : List Value := wholeRecord.set 5 (.float64 (.finite 0))

/-- The slot is an int. -/
def Value.isInt : Value → Bool
  | .int _ => true
  | _ => false

/-- How `StructureRawResponse` decodes a slot into a string field: a string is
kept, an int becomes its decimal text (strconv.Itoa), anything else the empty
string. -/
def decodesAsString (slot : Value) (field : String) : Prop :=
  (∀ a : String, slot = .string a → field = a) ∧
  (∀ n : Int, slot = .int n → field = toString n) ∧
  (slot.isString = false → slot.isInt = false → field = "")

/-- How `StructureRawResponse` decodes a slot into a float64 field: a float64
is kept, an int is converted to float64, anything else gives 0. -/
def decodesAsFloat (slot : Value) (field : F64) : Prop :=
  (∀ f : F64, slot = .float64 f → field = f) ∧
  (∀ n : Int, slot = .int n → field = Int.toF64 n) ∧
  (slot.isNumber = false → field = .finite 0)

/-- How `StructureRawResponse` decodes a slot into an int field: the float64
reading of the slot truncated toward zero, 0 for a slot that is not a number. -/
def decodesAsInt (slot : Value) (field : Int) : Prop :=
  (∀ f : F64, slot = .float64 f → field = f.toInt) ∧
  (∀ n : Int, slot = .int n → field = (Int.toF64 n).toInt) ∧
  (slot.isNumber = false → field = 0)

/-- How `StructureRawResponse` decodes a slot into a bool field: a bool is
kept, anything else gives false. -/
def decodesAsBool (slot : Value) (field : Bool) : Prop :=
  (∀ b : Bool, slot = .bool b → field = b) ∧
  (slot.isBool = false → field = false)

/-- The record of `TestParseRawState` with the int 5 in the string slot 0. -/
def intIcaoRecord : List Value := wholeRecord.set 0 (.int 5)

/-! ## Comparison lemmas -/

theorem F64.ge_eq_not_lt (a b : F64) (ha : a ≠ .nan) (hb : b ≠ .nan) :
    F64.ge a b = !F64.lt a b := by
  cases a <;> cases b <;> simp_all [F64.ge, F64.lt, F64.eq]
  rename_i x y
  by_cases h : x < y
  · simp [h, not_lt.mpr h.le, h.ne]
  · simp only [h, decide_False, Bool.not_false, Bool.or_eq_true, decide_eq_true_eq]
    rcases lt_or_eq_of_le (not_lt.mp h) with h1 | h1
    · exact Or.inl h1
    · exact Or.inr h1.symm

theorem F64.le_eq_not_lt (a b : F64) (ha : a ≠ .nan) (hb : b ≠ .nan) :
    F64.le a b = !F64.lt b a := by
  cases a <;> cases b <;> simp_all [F64.le, F64.lt, F64.eq]
  rename_i x y
  by_cases h : y < x
  · simp [h, not_lt.mpr h.le, h.ne']
  · simp only [h, decide_False, Bool.not_false, Bool.or_eq_true, decide_eq_true_eq]
    exact lt_or_eq_of_le (not_lt.mp h)

theorem F64.lt_irrefl (a : F64) : F64.lt a a = false := by
  cases a <;> simp [F64.lt]

theorem F64.lt_false_of_le (a b : F64) (h : F64.le a b = true) : F64.lt b a = false := by
  cases a <;> cases b <;> simp_all [F64.le, F64.lt, F64.eq]
  rcases h with h | h
  · exact h.le
  · exact h.le

theorem F64.ge_false_of_lt (a b : F64) (h : F64.lt a b = true) : F64.ge a b = false := by
  cases a <;> cases b <;> simp_all [F64.ge, F64.lt, F64.eq]
  exact ⟨h.le, h.ne⟩

theorem F64.ne_nan_of_lt_left (a b : F64) (h : F64.lt a b = true) : a ≠ .nan := by
  cases a <;> simp_all [F64.lt]

theorem F64.ne_nan_of_lt_right (a b : F64) (h : F64.lt a b = true) : b ≠ .nan := by
  cases a <;> cases b <;> simp_all [F64.lt]

theorem openskyapi.validate_eq_none_iff (b : BoundBox) :
    b.Validate = none ↔
      F64.ge b.MinLongitude b.MaxLongitude = false ∧
      F64.gt b.MinLatitude b.MaxLatitude = false ∧
      (F64.gt b.MinLongitude (.finite 180) = false ∧ F64.gt b.MaxLongitude (.finite 180) = false ∧
        F64.lt b.MinLongitude (.finite (-180)) = false ∧
        F64.lt b.MaxLongitude (.finite (-180)) = false) ∧
      (F64.gt b.MinLatitude (.finite 90) = false ∧ F64.gt b.MaxLatitude (.finite 90) = false ∧
        F64.lt b.MinLatitude (.finite (-90)) = false ∧
        F64.lt b.MaxLatitude (.finite (-90)) = false) := by
  unfold BoundBox.Validate
  cases F64.ge b.MinLongitude b.MaxLongitude <;> cases F64.gt b.MinLatitude b.MaxLatitude <;>
    cases F64.gt b.MinLongitude (.finite 180) <;> cases F64.gt b.MaxLongitude (.finite 180) <;>
    cases F64.lt b.MinLongitude (.finite (-180)) <;>
    cases F64.lt b.MaxLongitude (.finite (-180)) <;> simp [and_assoc]

/-! ## BoundBox.Validate -/

open openskyapi

/-- C1: a box whose minimum longitude is greater than or equal to its maximum
longitude (equality included) is rejected by `Validate`, whatever its
latitudes. -/
theorem validate_rejects_longitude_order (b : BoundBox)
    (h : F64.ge b.MinLongitude b.MaxLongitude = true) : b.Validate ≠ none := by
  simp [BoundBox.Validate, h]

theorem validate_rejects_longitude_order_witness :
    F64.ge (F64.finite 0) (F64.finite 0) = true ∧
      (BoundBox.mk (.finite 500) (.finite (-500)) (.finite 0) (.finite 0)).Validate ≠ none :=
  ⟨by simp [F64.ge, F64.eq], validate_rejects_longitude_order _ (by simp [F64.ge, F64.eq])⟩

/-- C2, as stated, fails: the box whose four coordinates are all 0 has every
coordinate in its legal range and min ≤ max on each axis, yet `Validate`
rejects it with the longitude-order failure. -/
theorem validate_legal_min_le_max_counterexample :
    inClosedRange (-90) 90 zeroBox.MinLatitude = true ∧
    inClosedRange (-90) 90 zeroBox.MaxLatitude = true ∧
    inClosedRange (-180) 180 zeroBox.MinLongitude = true ∧
    inClosedRange (-180) 180 zeroBox.MaxLongitude = true ∧
    F64.le zeroBox.MinLatitude zeroBox.MaxLatitude = true ∧
    F64.le zeroBox.MinLongitude zeroBox.MaxLongitude = true ∧
    zeroBox.Validate = some (.longitudeOrder (.finite 0) (.finite 0)) := by
  simp [zeroBox, inClosedRange, BoundBox.Validate, F64.le, F64.ge, F64.lt, F64.eq]

/-- C2, amended: a box whose latitudes lie in [-90, 90], whose longitudes lie
in [-180, 180], with MinLatitude ≤ MaxLatitude and MinLongitude strictly below
MaxLongitude, is accepted by `Validate`. -/
theorem validate_accepts_legal_box (b : BoundBox)
    (hlat1 : inClosedRange (-90) 90 b.MinLatitude = true)
    (hlat2 : inClosedRange (-90) 90 b.MaxLatitude = true)
    (hlon1 : inClosedRange (-180) 180 b.MinLongitude = true)
    (hlon2 : inClosedRange (-180) 180 b.MaxLongitude = true)
    (hlat : F64.le b.MinLatitude b.MaxLatitude = true)
    (hlon : F64.lt b.MinLongitude b.MaxLongitude = true) : b.Validate = none := by
  simp only [inClosedRange, Bool.and_eq_true] at hlat1 hlat2 hlon1 hlon2
  rw [validate_eq_none_iff]
  refine ⟨F64.ge_false_of_lt _ _ hlon, F64.lt_false_of_le _ _ hlat, ⟨?_, ?_, ?_, ?_⟩, ?_, ?_, ?_, ?_⟩
  · exact F64.lt_false_of_le _ _ hlon1.2
  · exact F64.lt_false_of_le _ _ hlon2.2
  · exact F64.lt_false_of_le _ _ hlon1.1
  · exact F64.lt_false_of_le _ _ hlon2.1
  · exact F64.lt_false_of_le _ _ hlat1.2
  · exact F64.lt_false_of_le _ _ hlat2.2
  · exact F64.lt_false_of_le _ _ hlat1.1
  · exact F64.lt_false_of_le _ _ hlat2.1

theorem validate_accepts_legal_box_witness : coverAreaTestValid.Validate = none :=
  validate_accepts_legal_box coverAreaTestValid
    (by norm_num [coverAreaTestValid, inClosedRange, F64.le, F64.lt, F64.eq])
    (by norm_num [coverAreaTestValid, inClosedRange, F64.le, F64.lt, F64.eq])
    (by norm_num [coverAreaTestValid, inClosedRange, F64.le, F64.lt, F64.eq])
    (by norm_num [coverAreaTestValid, inClosedRange, F64.le, F64.lt, F64.eq])
    (by norm_num [coverAreaTestValid, F64.le, F64.lt, F64.eq])
    (by norm_num [coverAreaTestValid, F64.lt])

/-- C3: for a box with no NaN coordinate, `Validate` returns nil exactly when
MinLongitude < MaxLongitude, MinLatitude ≤ MaxLatitude, both longitudes lie in
the closed interval [-180, 180] and both latitudes in the closed interval
[-90, 90]. -/
theorem validate_accepts_iff_rules (b : BoundBox)
    (h1 : b.MinLatitude ≠ .nan) (h2 : b.MaxLatitude ≠ .nan)
    (h3 : b.MinLongitude ≠ .nan) (h4 : b.MaxLongitude ≠ .nan) :
    b.Validate = none ↔
      F64.lt b.MinLongitude b.MaxLongitude = true ∧
      F64.le b.MinLatitude b.MaxLatitude = true ∧
      (inClosedRange (-180) 180 b.MinLongitude = true ∧
        inClosedRange (-180) 180 b.MaxLongitude = true) ∧
      (inClosedRange (-90) 90 b.MinLatitude = true ∧
        inClosedRange (-90) 90 b.MaxLatitude = true) := by
  have n180 : F64.finite 180 ≠ .nan := by simp
  have m180 : F64.finite (-180) ≠ .nan := by simp
  have n90 : F64.finite 90 ≠ .nan := by simp
  have m90 : F64.finite (-90) ≠ .nan := by simp
  rw [validate_eq_none_iff]
  simp only [inClosedRange, Bool.and_eq_true, F64.gt]
  rw [F64.ge_eq_not_lt _ _ h3 h4, F64.le_eq_not_lt _ _ h1 h2,
    F64.le_eq_not_lt _ _ m180 h3, F64.le_eq_not_lt _ _ h3 n180,
    F64.le_eq_not_lt _ _ m180 h4, F64.le_eq_not_lt _ _ h4 n180,
    F64.le_eq_not_lt _ _ m90 h1, F64.le_eq_not_lt _ _ h1 n90,
    F64.le_eq_not_lt _ _ m90 h2, F64.le_eq_not_lt _ _ h2 n90]
  simp only [Bool.not_eq_true', Bool.not_eq_false']
  tauto

theorem validate_accepts_iff_rules_witness :
    (BoundBox.mk (.finite (-90)) (.finite 90) (.finite (-180)) (.finite 180)).Validate = none ∧
    (BoundBox.mk (.finite (-91)) (.finite 90) (.finite (-180)) (.finite 180)).Validate ≠ none ∧
    (BoundBox.mk (.finite (-90)) (.finite 90) (.finite (-180)) (.finite 181)).Validate ≠ none ∧
    (BoundBox.mk (.finite 5) (.finite 5) (.finite 10) (.finite 20)).Validate = none :=
  ⟨(validate_accepts_iff_rules _ (by simp) (by simp) (by simp) (by simp)).mpr
      (by norm_num [inClosedRange, F64.le, F64.lt, F64.eq]),
   fun h => by
      have := (validate_accepts_iff_rules _ (by simp) (by simp) (by simp) (by simp)).mp h
      norm_num [inClosedRange, F64.le, F64.lt, F64.eq] at this,
   fun h => by
      have := (validate_accepts_iff_rules _ (by simp) (by simp) (by simp) (by simp)).mp h
      norm_num [inClosedRange, F64.le, F64.lt, F64.eq] at this,
   (validate_accepts_iff_rules _ (by simp) (by simp) (by simp) (by simp)).mpr
      (by norm_num [inClosedRange, F64.le, F64.lt, F64.eq])⟩

/-- C4: `Validate` is first-failure in the documented rule order. When it
rejects a box, the failure it returns is the report of a violated rule (it
names that rule and carries the two values of that rule's axis), and no rule
earlier in the order (longitude order, latitude order, longitude range,
latitude range) is violated; when it accepts a box, no rule is violated. -/
theorem validate_first_failure (b : BoundBox) :
    (∀ e, b.Validate = some e →
      ∃ r : Rule, r.violated b = true ∧ (∀ r1 : Rule, r1.rank < r.rank → r1.violated b = false) ∧
        e = r.report b) ∧
    (b.Validate = none → ∀ r : Rule, r.violated b = false) := by
  unfold BoundBox.Validate
  cases h1 : F64.ge b.MinLongitude b.MaxLongitude
  · cases h2 : F64.gt b.MinLatitude b.MaxLatitude
    · cases h3 : (F64.gt b.MinLongitude (.finite 180) || F64.gt b.MaxLongitude (.finite 180)
          || F64.lt b.MinLongitude (.finite (-180)) || F64.lt b.MaxLongitude (.finite (-180)))
      · cases h4 : (F64.gt b.MinLatitude (.finite 90) || F64.gt b.MaxLatitude (.finite 90)
            || F64.lt b.MinLatitude (.finite (-90)) || F64.lt b.MaxLatitude (.finite (-90)))
        · simp only [Bool.or_eq_false_iff] at h3 h4
          refine ⟨by simp, fun _ r => ?_⟩
          cases r <;> simp [Rule.violated, h1, h2, h3, h4]
        · refine ⟨?_, by simp⟩
          intro e he
          simp only [Bool.or_eq_false_iff] at h3
          simp only [Bool.false_eq_true, if_false, if_true, Option.some.injEq] at he
          refine ⟨.latitudeRange, ?_, ?_, ?_⟩
          · simp only [Bool.or_eq_true] at h4
            simp only [Rule.violated, Bool.or_eq_true]
            tauto
          · intro r1 hr
            cases r1 <;> simp [Rule.rank] at hr <;> simp [Rule.violated, h1, h2, h3]
          · simp [Rule.report, ← he]
      · refine ⟨?_, by simp⟩
        intro e he
        simp only [Bool.false_eq_true, if_false, if_true, Option.some.injEq] at he
        refine ⟨.longitudeRange, ?_, ?_, ?_⟩
        · simp only [Bool.or_eq_true] at h3
          simp only [Rule.violated, Bool.or_eq_true]
          tauto
        · intro r1 hr
          cases r1 <;> simp [Rule.rank] at hr <;> simp [Rule.violated, h1, h2]
        · simp [Rule.report, ← he]
    · refine ⟨?_, by simp⟩
      intro e he
      simp only [Bool.false_eq_true, if_false, if_true, Option.some.injEq] at he
      refine ⟨.latitudeOrder, by simp [Rule.violated, h2], ?_, by simp [Rule.report, ← he]⟩
      intro r1 hr
      cases r1 <;> simp [Rule.rank] at hr
      simp [Rule.violated, h1]
  · refine ⟨?_, by simp⟩
    intro e he
    simp only [if_true, Option.some.injEq] at he
    refine ⟨.longitudeOrder, by simp [Rule.violated, h1], ?_, by simp [Rule.report, ← he]⟩
    intro r1 hr
    cases r1 <;> simp [Rule.rank] at hr

/-- A box of `TestBoundBoxValidate` style with MinLatitude 200 above
MaxLatitude -24 and a valid longitude order: the failure is the latitude-order
one although MinLatitude is also out of range; and with MinLongitude equal to
MaxLongitude the failure is the longitude-order one although both latitudes
are out of range. -/
theorem validate_first_failure_witness :
    (BoundBox.mk (.finite 200) (.finite (-24)) (.finite 139) (.finite 154)).Validate
      = some (.latitudeOrder (.finite 200) (.finite (-24))) ∧
    (BoundBox.mk (.finite 200) (.finite 300) (.finite 139) (.finite 139)).Validate
      = some (.longitudeOrder (.finite 139) (.finite 139)) ∧
    ∃ r : Rule, r.violated (BoundBox.mk (.finite 200) (.finite (-24)) (.finite 139) (.finite 154))
        = true ∧
      (∀ r1 : Rule, r1.rank < r.rank →
        r1.violated (BoundBox.mk (.finite 200) (.finite (-24)) (.finite 139) (.finite 154))
          = false) ∧
      ValidateError.latitudeOrder (.finite 200) (.finite (-24))
        = r.report (BoundBox.mk (.finite 200) (.finite (-24)) (.finite 139) (.finite 154)) :=
  ⟨by norm_num [BoundBox.Validate, F64.ge, F64.gt, F64.lt, F64.eq],
   by norm_num [BoundBox.Validate, F64.ge, F64.gt, F64.lt, F64.eq],
   (validate_first_failure _).1 _ (by norm_num [BoundBox.Validate, F64.ge, F64.gt, F64.lt, F64.eq])⟩

/-! ## Conversions between int and float64 -/

theorem roundNat53_of_lt (m : Nat) (h : m < 2 ^ 53) : roundNat53 m = m := by
  have : Nat.size m ≤ 53 := Nat.size_le.mpr h
  simp [roundNat53, this]

theorem le_roundNat53 (m : Nat) (h : 2 ^ 53 ≤ m) : 2 ^ 53 ≤ roundNat53 m := by
  have hs : ¬ Nat.size m ≤ 53 := by
    rw [Nat.size_le]; omega
  have hs1 : 53 < Nat.size m := by omega
  simp only [roundNat53, hs, if_false]
  set e := Nat.size m - 53 with he
  have hpos : 0 < 2 ^ e := by positivity
  have hm : 2 ^ (e + 52) ≤ m := by
    have := Nat.lt_size.mp (show e + 52 < Nat.size m by omega)
    exact this
  have hq : 2 ^ 52 ≤ m / 2 ^ e := by
    rw [Nat.le_div_iff_mul_le hpos, ← pow_add]
    rwa [Nat.add_comm] at hm
  have he1 : 1 ≤ e := by omega
  have h2e : 2 ≤ 2 ^ e := by
    calc 2 = 2 ^ 1 := by norm_num
      _ ≤ 2 ^ e := Nat.pow_le_pow_right (by norm_num) he1
  have hq1 : m / 2 ^ e ≤
      (if 2 ^ (e - 1) < m % 2 ^ e ∨ (m % 2 ^ e = 2 ^ (e - 1) ∧ m / 2 ^ e % 2 = 1)
        then m / 2 ^ e + 1 else m / 2 ^ e) := by
    split_ifs <;> omega
  calc 2 ^ 53 = 2 ^ 52 * 2 := by norm_num
    _ ≤ (m / 2 ^ e) * 2 ^ e := Nat.mul_le_mul hq h2e
    _ ≤ _ := Nat.mul_le_mul_right _ hq1

theorem F64.toInt_finite_intCast (z : Int) :
    (F64.finite (z : ℚ)).toInt = if -2 ^ 63 ≤ z ∧ z < 2 ^ 63 then z else -2 ^ 63 := by
  simp [F64.toInt]

theorem Int.toInt_toF64_of_lt (n : Int) (h : n.natAbs < 2 ^ 53) :
    Int.toF64 n = .finite (n : ℚ) ∧ (Int.toF64 n).toInt = n := by
  have hF : Int.toF64 n = .finite (n : ℚ) := by
    unfold Int.toF64
    rw [roundNat53_of_lt _ h]
    split_ifs with h0
    · congr 1
      rw [Nat.cast_natAbs, abs_of_nonneg h0]
    · congr 1
      rw [Nat.cast_natAbs, abs_of_neg (by omega)]
      push_cast
      ring
  refine ⟨hF, ?_⟩
  rw [hF, F64.toInt_finite_intCast]
  have h3 : -2 ^ 63 ≤ n ∧ n < 2 ^ 63 := by omega
  rw [if_pos h3]

theorem Int.toInt_toF64_outside (c : Int) (h : c < 0 ∨ 3 < c) :
    (Int.toF64 c).toInt < 0 ∨ 3 < (Int.toF64 c).toInt := by
  by_cases hs : c.natAbs < 2 ^ 53
  · rw [(Int.toInt_toF64_of_lt c hs).2]; exact h
  · have hr := le_roundNat53 c.natAbs (by omega)
    unfold Int.toF64
    split_ifs with h0
    · have : ((roundNat53 c.natAbs : Nat) : ℚ) = (((roundNat53 c.natAbs : Nat) : Int) : ℚ) := by
        simp
      rw [this, F64.toInt_finite_intCast]
      split_ifs <;> omega
    · have : -((roundNat53 c.natAbs : Nat) : ℚ) = ((-((roundNat53 c.natAbs : Nat) : Int) : Int) : ℚ) := by
        simp
      rw [this, F64.toInt_finite_intCast]
      split_ifs <;> omega

/-! ## StructureRawResponse -/

theorem getElem?_eq_some_getD (s : List Value) (k : Nat) (h : k < s.length) :
    s[k]? = some (s.getD k .null) := by
  simp [List.getD_eq_getElem?_getD, List.getElem?_eq_getElem h]

/-- On a record of at least 17 slots no index expression of the loop body is
out of range, and the composite literal is built from the slots. -/
theorem openskyapi.structureState_of_length (s : List Value) (h : 17 ≤ s.length) :
    structureState s = some
      { ICAO24 := validateString (s.getD 0 .null)
        CallSign := validateString (s.getD 1 .null)
        OriginCountry := validateString (s.getD 2 .null)
        TimePosition := (validateFloat64 (s.getD 3 .null)).toInt
        LastContact := (validateFloat64 (s.getD 4 .null)).toInt
        Longitude := validateFloat64 (s.getD 5 .null)
        Latitude := validateFloat64 (s.getD 6 .null)
        GeoAltitude := validateFloat64 (s.getD 7 .null)
        OnGround := validateBool (s.getD 8 .null)
        Velocity := validateFloat64 (s.getD 9 .null)
        Heading := validateFloat64 (s.getD 10 .null)
        VerticalRate := validateFloat64 (s.getD 11 .null)
        BarometricAltitude := validateFloat64 (s.getD 13 .null)
        Squawk := validateString (s.getD 14 .null)
        Spi := validateBool (s.getD 15 .null)
        PositionSource := mapIndex PositionSource (validateFloat64 (s.getD 16 .null)).toInt } := by
  simp only [structureState, getElem?_eq_some_getD s 0 (by omega),
    getElem?_eq_some_getD s 1 (by omega), getElem?_eq_some_getD s 2 (by omega),
    getElem?_eq_some_getD s 3 (by omega), getElem?_eq_some_getD s 4 (by omega),
    getElem?_eq_some_getD s 5 (by omega), getElem?_eq_some_getD s 6 (by omega),
    getElem?_eq_some_getD s 7 (by omega), getElem?_eq_some_getD s 8 (by omega),
    getElem?_eq_some_getD s 9 (by omega), getElem?_eq_some_getD s 10 (by omega),
    getElem?_eq_some_getD s 11 (by omega), getElem?_eq_some_getD s 13 (by omega),
    getElem?_eq_some_getD s 14 (by omega), getElem?_eq_some_getD s 15 (by omega),
    getElem?_eq_some_getD s 16 (by omega)]

/-- A record shorter than 17 slots makes some index expression of the loop
body panic. -/
theorem openskyapi.structureState_of_short (s : List Value) (h : s.length < 17) :
    structureState s = none := by
  have h16 : s[16]? = none := List.getElem?_eq_none (by omega)
  unfold structureState
  repeat' split
  all_goals first | rfl | simp_all

/-- Records that all decode are appended in order and the loop goes on. -/
theorem openskyapi.structureLoop_append (pre rest : List (List Value)) (acc : List State)
    (h : ∀ r ∈ pre, 17 ≤ r.length) :
    structureLoop (pre ++ rest) acc = structureLoop rest (acc ++ pre.filterMap structureState) := by
  induction pre generalizing acc with
  | nil => simp
  | cons r pre ih =>
    obtain ⟨ss, hr⟩ : ∃ ss, structureState r = some ss :=
      ⟨_, structureState_of_length r (h r (by simp))⟩
    have ih1 := ih (acc ++ [ss]) (fun x hx => h x (by simp [hx]))
    simp only [List.cons_append, structureLoop, hr, List.filterMap_cons]
    simpa using ih1

theorem openskyapi.mapIndex_PositionSource (c : Int) :
    mapIndex PositionSource c =
      if c = 0 then "ADSB" else if c = 1 then "ASTERIX" else if c = 2 then "MLAT"
      else if c = 3 then "FLARM" else "" := by
  by_cases h0 : c = 0
  · subst h0; rfl
  by_cases h1 : c = 1
  · subst h1; rfl
  by_cases h2 : c = 2
  · subst h2; rfl
  by_cases h3 : c = 3
  · subst h3; rfl
  have e0 : (c == 0) = false := by simpa using h0
  have e1 : (c == 1) = false := by simpa using h1
  have e2 : (c == 2) = false := by simpa using h2
  have e3 : (c == 3) = false := by simpa using h3
  simp [mapIndex, PositionSource, List.lookup, h0, h1, h2, h3, e0, e1, e2, e3]

theorem openskyapi.structureLoop_acc (l : List (List Value)) (acc : List State) :
    structureLoop l acc = acc ++ structureLoop l [] := by
  induction l generalizing acc with
  | nil => simp [structureLoop]
  | cons r l ih =>
    simp only [structureLoop]
    cases structureState r with
    | none => simp
    | some ss =>
      simp only [List.nil_append]
      rw [ih (acc ++ [ss]), ih [ss]]
      simp

theorem openskyapi.length_filterMap_structureState (pre : List (List Value))
    (h : ∀ r ∈ pre, 17 ≤ r.length) : (pre.filterMap structureState).length = pre.length := by
  induction pre with
  | nil => simp
  | cons r pre ih =>
    have hr := structureState_of_length r (h r (by simp))
    simp [List.filterMap_cons, hr, ih (fun x hx => h x (by simp [hx]))]

/-- The State of a record of at least 17 slots that follows only records of
at least 17 slots is found in the result at the index of the record. -/
theorem openskyapi.structureRawResponse_getElem? (t : Int) (pre post : List (List Value))
    (s : List Value) (st : State) (hpre : ∀ r ∈ pre, 17 ≤ r.length)
    (hst : structureState s = some st) :
    (StructureRawResponse ⟨t, pre ++ s :: post⟩).States[pre.length]? = some st := by
  simp only [StructureRawResponse]
  rw [structureLoop_append pre _ [] hpre]
  simp only [structureLoop, hst, List.nil_append]
  rw [structureLoop_acc]
  have hl := length_filterMap_structureState pre hpre
  rw [List.append_assoc, List.getElem?_append_right (by omega)]
  simp [hl]

/-- C5, as stated, fails: the record of `TestParseRawState` with the float64
1.5 in slot 3 is decoded to one State whose TimePosition is 1, which is not
the number held by slot 3. -/
theorem structureRawResponse_round_trip_counterexample :
    fractionalRecord[3]? = some (.float64 (.finite (3 / 2))) ∧
    ∃ st, (StructureRawResponse ⟨1643623949, [fractionalRecord]⟩).States = [st] ∧
      st.TimePosition = 1 ∧
      ¬ Value.isInteger (.float64 (.finite (3 / 2))) st.TimePosition := by
  refine ⟨rfl, ?_⟩
  simp only [StructureRawResponse, structureLoop, structureState, fractionalRecord, testRecord]
  refine ⟨_, rfl, ?_, ?_⟩
  · norm_num [validateFloat64, F64.toInt]
    decide
  · have h : (validateFloat64 (.float64 (.finite (3 / 2)))).toInt = 1 := by
      norm_num [validateFloat64, F64.toInt]
      decide
    show ¬ Value.isInteger _ (validateFloat64 (.float64 (.finite (3 / 2)))).toInt
    rw [h]
    norm_num [Value.isInteger]
    intro h0
    cases h0

/-- C5, amended: a response holding one 17-slot record with strings in slots
0, 1, 2 and 14, numbers (float64 or int) in slots 3, 4, 5, 6, 7, 9, 10, 11, 13
and 16 and booleans in slots 8 and 15 (slot 12 arbitrary) is decoded to
Time = time.Unix(nsr.Time, 0) and exactly one State. Its string and boolean
fields are the slots; each real-valued field is its slot as a float64 (the
slot itself when it is a float64, the nearest float64 when it is an int);
TimePosition and LastContact are that float64 truncated toward zero, and
PositionSource is the code-table entry of slot 16 truncated the same way.
The conversions are exact, so that the field equals the slot, for an int of
magnitude below 2^53 and for an integral float64 within the int64 range; code
3 gives "FLARM". -/
theorem structureRawResponse_round_trip (t : Int) (i c o q : String)
    (n3 n4 n5 n6 n7 n9 n10 n11 n13 n16 : Number) (g p : Bool) (x12 : Value) :
    StructureRawResponse ⟨t, [[.string i, .string c, .string o, n3.toValue, n4.toValue,
        n5.toValue, n6.toValue, n7.toValue, .bool g, n9.toValue, n10.toValue, n11.toValue,
        x12, n13.toValue, .string q, .bool p, n16.toValue]]⟩
      = ⟨Time.Unix t 0,
         [{ ICAO24 := i, CallSign := c, OriginCountry := o,
            TimePosition := n3.toF64.toInt, LastContact := n4.toF64.toInt,
            Longitude := n5.toF64, Latitude := n6.toF64, GeoAltitude := n7.toF64,
            OnGround := g, Velocity := n9.toF64, Heading := n10.toF64,
            VerticalRate := n11.toF64, BarometricAltitude := n13.toF64,
            Squawk := q, Spi := p,
            PositionSource := mapIndex PositionSource n16.toF64.toInt }]⟩ ∧
    (∀ f : F64, (Number.ofFloat f).toF64 = f) ∧
    (∀ n : Int, n.natAbs < 2 ^ 53 →
      (Number.ofInt n).toF64 = .finite (n : ℚ) ∧ (Number.ofInt n).toF64.toInt = n) ∧
    (∀ z : Int, -2 ^ 63 ≤ z → z < 2 ^ 63 → (Number.ofFloat (.finite (z : ℚ))).toF64.toInt = z) ∧
    mapIndex PositionSource 3 = "FLARM" := by
  refine ⟨?_, fun _ => rfl, fun n hn => Int.toInt_toF64_of_lt n hn, ?_, rfl⟩
  · have hv : ∀ n : Number, validateFloat64 n.toValue = n.toF64 := by
      intro n; cases n <;> rfl
    simp [StructureRawResponse, structureLoop, structureState, validateString, validateBool, hv]
  · intro z h1 h2
    simp only [Number.toF64]
    rw [F64.toInt_finite_intCast, if_pos ⟨h1, h2⟩]

/-- The record of `TestParseRawState` (int timestamps, code 3) decodes to the
State the test expects. -/
theorem structureRawResponse_round_trip_witness :
    StructureRawResponse ⟨1643623949, [testRecord (.int 1643623948) (.finite 144) (.finite (-37))
        (.finite 403) (.finite 50) (.finite 357) (.finite 0) (.finite 312)]⟩
      = ⟨Time.Unix 1643623949 0,
         [{ ICAO24 := "7c7f38", CallSign := "ZEY     ", OriginCountry := "Australia",
            TimePosition := 1643623948, LastContact := 1643623948,
            Longitude := .finite 144, Latitude := .finite (-37), GeoAltitude := .finite 403,
            OnGround := false, Velocity := .finite 50, Heading := .finite 357,
            VerticalRate := .finite 0, BarometricAltitude := .finite 312,
            Squawk := "2502", Spi := false, PositionSource := "FLARM" }]⟩ := by
  have h := (structureRawResponse_round_trip 1643623949 "7c7f38" "ZEY     " "Australia" "2502"
    (.ofInt 1643623948) (.ofInt 1643623948) (.ofFloat (.finite 144)) (.ofFloat (.finite (-37)))
    (.ofFloat (.finite 403)) (.ofFloat (.finite 50)) (.ofFloat (.finite 357))
    (.ofFloat (.finite 0)) (.ofFloat (.finite 312)) (.ofInt 3) false false .null)
  have e1 := (h.2.2.1 1643623948 (by decide)).2
  have e2 := (h.2.2.1 3 (by decide)).2
  have h1 := h.1
  rw [e1, e2, h.2.2.2.2] at h1
  exact h1

/-- C6: a record of at least 17 slots whose slot 16 is an integer code c (as
an int or as an integral float64) is decoded without a panic, and its State
has PositionSource "ADSB" for c = 0, "ASTERIX" for c = 1, "MLAT" for c = 2,
"FLARM" for c = 3 and the empty string for every other c. When the records
before it have at least 17 slots too, that State is the entry of the result
at the index of the record. -/
theorem structureRawResponse_position_source (t : Int) (pre post : List (List Value))
    (s : List Value) (v : Value) (c : Int)
    (hpre : ∀ r ∈ pre, 17 ≤ r.length) (hs : 17 ≤ s.length)
    (h16 : s[16]? = some v) (hv : v.isInteger c) :
    ∃ st, structureState s = some st ∧
      (StructureRawResponse ⟨t, pre ++ s :: post⟩).States[pre.length]? = some st ∧
      st.PositionSource =
        if c = 0 then "ADSB" else if c = 1 then "ASTERIX" else if c = 2 then "MLAT"
        else if c = 3 then "FLARM" else "" := by
  have hst := structureState_of_length s hs
  refine ⟨_, hst, structureRawResponse_getElem? t pre post s _ hpre hst, ?_⟩
  have hg : s.getD 16 .null = v := by
    rw [List.getD_eq_getElem?_getD, h16]; rfl
  simp only [hg]
  rw [mapIndex_PositionSource]
  by_cases hc : 0 ≤ c ∧ c ≤ 3
  · have hconv : (validateFloat64 v).toInt = c := by
      rcases hv with rfl | rfl
      · exact (Int.toInt_toF64_of_lt c (by omega)).2
      · simp only [validateFloat64]
        rw [F64.toInt_finite_intCast, if_pos (by omega)]
    rw [hconv]
  · have hout : (validateFloat64 v).toInt < 0 ∨ 3 < (validateFloat64 v).toInt := by
      rcases hv with rfl | rfl
      · exact Int.toInt_toF64_outside c (by omega)
      · simp only [validateFloat64]
        rw [F64.toInt_finite_intCast]
        split_ifs <;> omega
    have h0 : ¬ (validateFloat64 v).toInt = 0 := by omega
    have h1 : ¬ (validateFloat64 v).toInt = 1 := by omega
    have h2 : ¬ (validateFloat64 v).toInt = 2 := by omega
    have h3 : ¬ (validateFloat64 v).toInt = 3 := by omega
    have c0 : ¬ c = 0 := by omega
    have c1 : ¬ c = 1 := by omega
    have c2 : ¬ c = 2 := by omega
    have c3 : ¬ c = 3 := by omega
    simp only [h0, h1, h2, h3, c0, c1, c2, c3, if_false]

/-- The record of `TestParseRawState` after a first well-formed record: its
code 3 gives "FLARM"; with code 7 in slot 16 the label is empty. -/
theorem structureRawResponse_position_source_witness :
    (∃ st, structureState (testRecord .null (.finite 1) (.finite 2) (.finite 3) (.finite 4)
          (.finite 5) (.finite 6) (.finite 7)) = some st ∧
      (StructureRawResponse ⟨5, [testRecord .null (.finite 0) (.finite 0) (.finite 0) (.finite 0)
          (.finite 0) (.finite 0) (.finite 0)] ++
        testRecord .null (.finite 1) (.finite 2) (.finite 3) (.finite 4)
          (.finite 5) (.finite 6) (.finite 7) :: []⟩).States[1]? = some st ∧
      st.PositionSource = "FLARM") ∧
    (∃ st, structureState ((List.replicate 16 Value.null) ++ [.float64 (.finite (7 : Int))])
        = some st ∧
      (StructureRawResponse ⟨5, [] ++
        ((List.replicate 16 Value.null) ++ [.float64 (.finite (7 : Int))]) :: []⟩).States[0]?
        = some st ∧
      st.PositionSource = "") :=
  ⟨structureRawResponse_position_source 5 [_] [] _ (.int 3) 3
      (by simp [testRecord]) (by simp [testRecord]) (by simp [testRecord]) (Or.inl rfl),
   structureRawResponse_position_source 5 [] [] _ (.float64 (.finite (7 : Int))) 7
      (by simp) (by simp) (by simp) (Or.inr rfl)⟩

/-! ## parseState -/

open goosnapi

/-- C7: for a record with fewer than 17 slots (the empty record included) and
any index i, `parseState` returns the zero State and the error
"invalid state object at position i: response contains len(s) values,
expected 17", whatever the slots hold. -/
theorem parseState_short_record (s : List Value) (i : Int) (h : s.length < 17) :
    parseState s i = (State.zero, some (.stateObject i s.length)) := by
  simp [parseState, h]

theorem parseState_short_record_witness :
    parseState [] 4 = (State.zero, some (.stateObject 4 0)) ∧
    parseState ((jsonRecord (.string "7c7f38")).take 16) 2 = (State.zero, some (.stateObject 2 16)) ∧
    parseState [.other 0, .slice [], .int 5] (-1) = (State.zero, some (.stateObject (-1) 3)) :=
  ⟨parseState_short_record [] 4 (by decide),
   parseState_short_record _ 2 (by decide),
   parseState_short_record _ (-1) (by decide)⟩

theorem Except.isError_bind_iff {ε α β : Type} {x : Except ε α} {f : α → Except ε β}
    {P Q : Prop} (hx : (∃ e, x = .error e) ↔ P) (hf : ∀ a, (∃ e, f a = .error e) ↔ Q) :
    (∃ e, (x >>= f) = .error e) ↔ (P ∨ Q) := by
  cases x with
  | error e0 =>
    have hP : P := hx.mp ⟨e0, rfl⟩
    simp [bind, Except.bind, hP]
  | ok a =>
    have hP : ¬ P := fun h => by
      obtain ⟨e, he⟩ := hx.mpr h
      cases he
    simp only [bind, Except.bind, hP, false_or]
    exact hf a

theorem parseSlots_error_iff (i : Int)
    (v0 v1 v2 v3 v4 v5 v6 v7 v8 v9 v10 v11 v12 v13 v14 v15 v16 : Value) :
    (∃ e, parseSlots i v0 v1 v2 v3 v4 v5 v6 v7 v8 v9 v10 v11 v12 v13 v14 v15 v16 = .error e) ↔
      (v0.isString = false ∨ (v1.isNull = false ∧ v1.isString = false) ∨ v2.isString = false ∨
       (v3.isNull = false ∧ v3.isFloat64 = false) ∨ v4.isFloat64 = false ∨ v8.isBool = false ∨
       (v12.isNull = false ∧ v12.isFloat64Slice = false) ∨
       (v14.isNull = false ∧ v14.isString = false) ∨ v15.isBool = false ∨
       v16.isFloat64 = false) := by
  unfold parseSlots
  refine Except.isError_bind_iff ?_ (fun icao24 => ?_)
  · cases v0 <;> simp [assertString, Value.isString]
  refine Except.isError_bind_iff ?_ (fun callsign => ?_)
  · cases v1 <;> simp [assertString, notNil, Value.isString, Value.isNull]
  refine Except.isError_bind_iff ?_ (fun originCountry => ?_)
  · cases v2 <;> simp [assertString, Value.isString]
  refine Except.isError_bind_iff ?_ (fun timePosition => ?_)
  · cases v3 <;> simp [jsonNumberToInt, notNil, Value.isFloat64, Value.isNull]
  refine Except.isError_bind_iff ?_ (fun lastContact => ?_)
  · cases v4 <;> simp [jsonNumberToInt, Value.isFloat64]
  dsimp only
  refine Except.isError_bind_iff ?_ (fun onGround => ?_)
  · cases v8 <;> simp [assertBool, Value.isBool]
  dsimp only
  refine Except.isError_bind_iff ?_ (fun sensors => ?_)
  · cases v12 <;> simp [jsonNumberArrayToIntArray, notNil, Value.isFloat64Slice, Value.isNull]
  dsimp only
  refine Except.isError_bind_iff ?_ (fun squawk => ?_)
  · cases v14 <;> simp [assertString, notNil, Value.isString, Value.isNull]
  refine Except.isError_bind_iff ?_ (fun spi => ?_)
  · cases v15 <;> simp [assertBool, Value.isBool]
  refine (Except.isError_bind_iff (P := v16.isFloat64 = false) (Q := False) ?_
    (fun positionSource => ?_)).trans (by simp)
  · cases v16 <;> simp [jsonNumberToInt, Value.isFloat64]
  · simp [pure, Except.pure]

theorem goosnapi.parseState_of_length (s : List Value) (i : Int) (h : 17 ≤ s.length) :
    parseState s i =
      match parseSlots i (s.getD 0 .null) (s.getD 1 .null) (s.getD 2 .null) (s.getD 3 .null)
        (s.getD 4 .null) (s.getD 5 .null) (s.getD 6 .null) (s.getD 7 .null) (s.getD 8 .null)
        (s.getD 9 .null) (s.getD 10 .null) (s.getD 11 .null) (s.getD 12 .null)
        (s.getD 13 .null) (s.getD 14 .null) (s.getD 15 .null) (s.getD 16 .null) with
      | .ok state => (state, none)
      | .error err => (State.zero, some err) := by
  have h1 : ¬ s.length < 17 := by omega
  simp only [parseState, h1, if_false]

/-- C10: for a record with at least 17 slots, `parseState` returns an error
exactly when slot 0 is not a string, or slot 1 is non-null and not a string,
or slot 2 is not a string, or slot 3 is non-null and not a float64, or slot 4
is not a float64, or slot 8 is not a boolean, or slot 12 is non-null and not
accepted as a number array, or slot 14 is non-null and not a string, or slot
15 is not a boolean, or slot 16 is not a float64. Slots 5, 6, 7, 9, 10, 11
and 13 do not occur in the condition. -/
theorem parseState_error_iff (s : List Value) (i : Int) (h : 17 ≤ s.length) :
    (parseState s i).2 ≠ none ↔
      ((s.getD 0 .null).isString = false ∨
       ((s.getD 1 .null).isNull = false ∧ (s.getD 1 .null).isString = false) ∨
       (s.getD 2 .null).isString = false ∨
       ((s.getD 3 .null).isNull = false ∧ (s.getD 3 .null).isFloat64 = false) ∨
       (s.getD 4 .null).isFloat64 = false ∨
       (s.getD 8 .null).isBool = false ∨
       ((s.getD 12 .null).isNull = false ∧ (s.getD 12 .null).isFloat64Slice = false) ∨
       ((s.getD 14 .null).isNull = false ∧ (s.getD 14 .null).isString = false) ∨
       (s.getD 15 .null).isBool = false ∨
       (s.getD 16 .null).isFloat64 = false) := by
  rw [← parseSlots_error_iff i (s.getD 0 .null) (s.getD 1 .null) (s.getD 2 .null)
    (s.getD 3 .null) (s.getD 4 .null) (s.getD 5 .null) (s.getD 6 .null) (s.getD 7 .null)
    (s.getD 8 .null) (s.getD 9 .null) (s.getD 10 .null) (s.getD 11 .null) (s.getD 12 .null)
    (s.getD 13 .null) (s.getD 14 .null) (s.getD 15 .null) (s.getD 16 .null),
    parseState_of_length s i h]
  cases parseSlots i (s.getD 0 .null) (s.getD 1 .null) (s.getD 2 .null)
    (s.getD 3 .null) (s.getD 4 .null) (s.getD 5 .null) (s.getD 6 .null) (s.getD 7 .null)
    (s.getD 8 .null) (s.getD 9 .null) (s.getD 10 .null) (s.getD 11 .null) (s.getD 12 .null)
    (s.getD 13 .null) (s.getD 14 .null) (s.getD 15 .null) (s.getD 16 .null) <;> simp

/-- The JSON-decoded test record is accepted, also with null or a string in
the real-valued slots 5 and 13; with the int 1643623948 in slot 4 (not a
float64) or a number in slot 0 it is rejected. -/
theorem parseState_error_iff_witness :
    (parseState (jsonRecord (.string "7c7f38")) 0).2 = none ∧
    (parseState (((jsonRecord (.string "7c7f38")).set 5 .null).set 13 (.string "x")) 0).2 = none ∧
    (parseState ((jsonRecord (.string "7c7f38")).set 4 (.int 1643623948)) 0).2 ≠ none ∧
    (parseState (jsonRecord (.float64 (.finite 7))) 0).2 ≠ none :=
  ⟨not_not.mp (fun hne => by
      have := (parseState_error_iff _ 0 (by decide)).mp hne
      simp [jsonRecord, Value.isString, Value.isNull, Value.isFloat64, Value.isBool] at this),
   not_not.mp (fun hne => by
      have := (parseState_error_iff _ 0 (by decide)).mp hne
      simp [jsonRecord, Value.isString, Value.isNull, Value.isFloat64, Value.isBool] at this),
   (parseState_error_iff _ 0 (by decide)).mpr (by
      simp [jsonRecord, Value.isString, Value.isNull, Value.isFloat64, Value.isBool]),
   (parseState_error_iff _ 0 (by decide)).mpr (by
      simp [jsonRecord, Value.isString, Value.isNull, Value.isFloat64, Value.isBool])⟩

/-! ## Batches with one malformed record -/

/-- C8 at a failing input: a batch of two records, the first with a number in
slot 0 (rejected by `parseState` with the icao24 error), the second
well-formed, decoded into an empty structured response. The resulting States
list has two entries, not one: the zero State stands where the rejected
record was, before the State of the well-formed record. -/
theorem parseResponse_keeps_rejected_record :
    (parseState (jsonRecord (.float64 (.finite 7))) 0).2
      = some (.icao24 0 (.float64 (.finite 7))) ∧
    (parseState (jsonRecord (.string "7c7f38")) 1).2 = none ∧
    (parseState (jsonRecord (.string "7c7f38")) 1).1.ICAO24 = "7c7f38" ∧
    (parseNonStructuredResponseToStructureResponse
      ⟨1643623949, [jsonRecord (.float64 (.finite 7)), jsonRecord (.string "7c7f38")]⟩
      ⟨0, []⟩).1.States
      = [State.zero, (parseState (jsonRecord (.string "7c7f38")) 1).1] ∧
    (parseNonStructuredResponseToStructureResponse
      ⟨1643623949, [jsonRecord (.float64 (.finite 7)), jsonRecord (.string "7c7f38")]⟩
      ⟨0, []⟩).1.States.length = 2 ∧
    (parseNonStructuredResponseToStructureResponse
      ⟨1643623949, [jsonRecord (.float64 (.finite 7)), jsonRecord (.string "7c7f38")]⟩
      ⟨0, []⟩).2 = [.icao24 0 (.float64 (.finite 7))] := by
  have hbad : parseState (jsonRecord (.float64 (.finite 7))) 0
      = (State.zero, some (.icao24 0 (.float64 (.finite 7)))) := by
    simp [parseState, jsonRecord, parseSlots, assertString, bind, Except.bind]
  have hgood : parseState (jsonRecord (.string "7c7f38")) 1 =
      ({ ICAO24 := "7c7f38", CallSign := "ZEY     ", OriginCountry := "Australia",
         TimePosition := some (Time.Unix (F64.finite 1643623948).toInt 0),
         LastContact := Time.Unix (F64.finite 1643623948).toInt 0,
         Longitude := some (.finite 144), Latitude := some (.finite (-37)),
         GeoAltitude := some (.finite 312), OnGround := false, Velocity := some (.finite 50),
         Heading := some (.finite 357), VerticalRate := some (.finite 0), Sensors := [],
         BarometricAltitude := some (.finite 403), Squawk := "2502", Spi := false,
         PositionSource := (F64.finite 3).toInt }, none) := by
    simp [parseState, jsonRecord, parseSlots, assertString, assertBool, assertFloat64,
      floatOrZero, notNil, jsonNumberToInt, bind, Except.bind, pure, Except.pure]
  simp only [parseNonStructuredResponseToStructureResponse, parseLoop, hbad, hgood]
  simp [hgood]

/-- C9 at a failing input: a batch whose first record is empty and whose
second record is the 17-slot record of `TestParseRawState`. The index
expression on the empty record panics, the function returns at once, and the
returned States are empty although the second record decodes on its own. -/
theorem structureRawResponse_stops_at_short_record :
    (structureState wholeRecord).isSome = true ∧
    (StructureRawResponse ⟨1643623949, [wholeRecord]⟩).States.length = 1 ∧
    (StructureRawResponse ⟨1643623949, [[], wholeRecord]⟩).States = [] := by
  refine ⟨?_, ?_, ?_⟩
  · simp [structureState, wholeRecord, testRecord]
  · simp [StructureRawResponse, structureLoop, structureState, wholeRecord, testRecord]
  · simp [StructureRawResponse, structureLoop, structureState]

/-! ## The accepting path of parseState -/

theorem Except.bind_eq_ok_iff {ε α β : Type} {x : Except ε α} {f : α → Except ε β} {b : β} :
    (x >>= f) = .ok b ↔ ∃ a, x = .ok a ∧ f a = .ok b := by
  cases x <;> simp [bind, Except.bind]

/-- When no step fails, the State returned is the accepted State of the slots. -/
theorem goosnapi.parseSlots_ok (i : Int)
    (v0 v1 v2 v3 v4 v5 v6 v7 v8 v9 v10 v11 v12 v13 v14 v15 v16 : Value) (st : goosnapi.State)
    (h : parseSlots i v0 v1 v2 v3 v4 v5 v6 v7 v8 v9 v10 v11 v12 v13 v14 v15 v16 = .ok st) :
    st = acceptedState v0 v1 v2 v3 v4 v5 v6 v7 v8 v9 v10 v11 v12 v13 v14 v15 v16 := by
  unfold parseSlots at h
  obtain ⟨icao24, h0, h⟩ := Except.bind_eq_ok_iff.mp h
  obtain ⟨callsign, h1, h⟩ := Except.bind_eq_ok_iff.mp h
  obtain ⟨originCountry, h2, h⟩ := Except.bind_eq_ok_iff.mp h
  obtain ⟨timePosition, h3, h⟩ := Except.bind_eq_ok_iff.mp h
  obtain ⟨lastContact, h4, h⟩ := Except.bind_eq_ok_iff.mp h
  obtain ⟨onGround, h8, h⟩ := Except.bind_eq_ok_iff.mp h
  obtain ⟨sensors, h12, h⟩ := Except.bind_eq_ok_iff.mp h
  obtain ⟨squawk, h14, h⟩ := Except.bind_eq_ok_iff.mp h
  obtain ⟨spi, h15, h⟩ := Except.bind_eq_ok_iff.mp h
  obtain ⟨positionSource, h16, h⟩ := Except.bind_eq_ok_iff.mp h
  have e0 : icao24 = (assertString v0).getD "" := by
    cases v0 <;> simp [assertString] at h0 ⊢
    exact h0.symm
  have e1 : callsign = (assertString v1).getD "" := by
    cases v1 <;> simp [assertString, notNil] at h1 ⊢
    · exact h1.symm
    · exact h1.symm
  have e2 : originCountry = (assertString v2).getD "" := by
    cases v2 <;> simp [assertString] at h2 ⊢
    exact h2.symm
  have e3 : timePosition = (assertFloat64 v3).map (fun f => Time.Unix f.toInt 0) := by
    cases v3 <;> simp [assertFloat64, jsonNumberToInt, notNil] at h3 ⊢
    · exact h3.symm
    · exact h3.symm
  have e4 : lastContact = ((assertFloat64 v4).getD (.finite 0)).toInt := by
    cases v4 <;> simp [assertFloat64, jsonNumberToInt] at h4 ⊢
    exact h4.symm
  have e8 : onGround = (assertBool v8).getD false := by
    cases v8 <;> simp [assertBool] at h8 ⊢
    exact h8.symm
  have e12 : sensors = acceptedSensors v12 := by
    cases v12 <;> simp [jsonNumberArrayToIntArray, notNil, acceptedSensors] at h12 ⊢
    · exact h12
    · exact h12.symm
  have e14 : squawk = (assertString v14).getD "" := by
    cases v14 <;> simp [assertString, notNil] at h14 ⊢
    · exact h14.symm
    · exact h14.symm
  have e15 : spi = (assertBool v15).getD false := by
    cases v15 <;> simp [assertBool] at h15 ⊢
    exact h15.symm
  have e16 : positionSource = ((assertFloat64 v16).getD (.finite 0)).toInt := by
    cases v16 <;> simp [assertFloat64, jsonNumberToInt] at h16 ⊢
    exact h16.symm
  simp only [pure, Except.pure, Except.ok.injEq] at h
  rw [← h, e0, e1, e2, e3, e4, e8, e12, e14, e15, e16]
  rfl

theorem goosnapi.parseState_accepted_iff (s : List Value) (i : Int) (h : 17 ≤ s.length) :
    (parseState s i).2 = none ↔
      ¬ ((s.getD 0 .null).isString = false ∨
         ((s.getD 1 .null).isNull = false ∧ (s.getD 1 .null).isString = false) ∨
         (s.getD 2 .null).isString = false ∨
         ((s.getD 3 .null).isNull = false ∧ (s.getD 3 .null).isFloat64 = false) ∨
         (s.getD 4 .null).isFloat64 = false ∨
         (s.getD 8 .null).isBool = false ∨
         ((s.getD 12 .null).isNull = false ∧ (s.getD 12 .null).isFloat64Slice = false) ∨
         ((s.getD 14 .null).isNull = false ∧ (s.getD 14 .null).isString = false) ∨
         (s.getD 15 .null).isBool = false ∨
         (s.getD 16 .null).isFloat64 = false) := by
  rw [← parseSlots_error_iff i (s.getD 0 .null) (s.getD 1 .null) (s.getD 2 .null)
    (s.getD 3 .null) (s.getD 4 .null) (s.getD 5 .null) (s.getD 6 .null) (s.getD 7 .null)
    (s.getD 8 .null) (s.getD 9 .null) (s.getD 10 .null) (s.getD 11 .null) (s.getD 12 .null)
    (s.getD 13 .null) (s.getD 14 .null) (s.getD 15 .null) (s.getD 16 .null),
    parseState_of_length s i h]
  cases parseSlots i (s.getD 0 .null) (s.getD 1 .null) (s.getD 2 .null)
    (s.getD 3 .null) (s.getD 4 .null) (s.getD 5 .null) (s.getD 6 .null) (s.getD 7 .null)
    (s.getD 8 .null) (s.getD 9 .null) (s.getD 10 .null) (s.getD 11 .null) (s.getD 12 .null)
    (s.getD 13 .null) (s.getD 14 .null) (s.getD 15 .null) (s.getD 16 .null) <;> simp

/-- An accepted record has at least 17 slots and its State is the accepted
State of its slots. -/
theorem goosnapi.parseState_of_accepted (s : List Value) (i : Int)
    (hacc : (parseState s i).2 = none) :
    17 ≤ s.length ∧ parseState s i = (acceptedStateOf s, none) := by
  by_cases hl : s.length < 17
  · simp [parseState, hl] at hacc
  · have h : 17 ≤ s.length := by omega
    refine ⟨h, ?_⟩
    rw [parseState_of_length s i h] at hacc ⊢
    cases hps : parseSlots i (s.getD 0 .null) (s.getD 1 .null) (s.getD 2 .null)
      (s.getD 3 .null) (s.getD 4 .null) (s.getD 5 .null) (s.getD 6 .null) (s.getD 7 .null)
      (s.getD 8 .null) (s.getD 9 .null) (s.getD 10 .null) (s.getD 11 .null) (s.getD 12 .null)
      (s.getD 13 .null) (s.getD 14 .null) (s.getD 15 .null) (s.getD 16 .null) with
    | error e => rw [hps] at hacc; simp at hacc
    | ok st =>
      have := parseSlots_ok i _ _ _ _ _ _ _ _ _ _ _ _ _ _ _ _ _ st hps
      simp only [this, acceptedStateOf]

theorem getD_set_null (s : List Value) (k j : Nat) (x : Value) (hk : k < s.length) :
    (s.set k x).getD j .null = if j = k then x else s.getD j .null := by
  simp only [List.getD_eq_getElem?_getD, List.getElem?_set]
  by_cases h : k = j
  · subst h; simp [hk]
  · have h1 : ¬ j = k := fun e => h e.symm
    simp [h, h1]

/-- C11: for a record of at least 17 slots that `parseState` accepts,
replacing slot 1 (call sign), slot 3 (last-position time), slot 12 (sensors)
or slot 14 (squawk) by null gives a record that `parseState` accepts too; its
State has CallSign "", TimePosition nil, Sensors empty or Squawk ""
respectively, and every other field as in the original decode. -/
theorem parseState_null_optional (s : List Value) (i : Int) (h : 17 ≤ s.length)
    (hacc : (parseState s i).2 = none) :
    parseState (s.set 1 .null) i = ({ (parseState s i).1 with CallSign := "" }, none) ∧
    parseState (s.set 3 .null) i = ({ (parseState s i).1 with TimePosition := none }, none) ∧
    parseState (s.set 12 .null) i = ({ (parseState s i).1 with Sensors := [] }, none) ∧
    parseState (s.set 14 .null) i = ({ (parseState s i).1 with Squawk := "" }, none) := by
  have hst := (goosnapi.parseState_of_accepted s i hacc).2
  have hc := (goosnapi.parseState_accepted_iff s i h).mp hacc
  simp only [not_or, not_and] at hc
  have hk1 : parseState (s.set 1 .null) i = (acceptedStateOf (s.set 1 .null), none) := by
    apply (goosnapi.parseState_of_accepted _ i _).2
    rw [goosnapi.parseState_accepted_iff _ i (by simpa using h)]
    have hn : Value.isNull .null = true := rfl
    simp only [getD_set_null s 1 _ .null (show 1 < s.length by omega), not_or, not_and]
    simp only [Nat.reduceEqDiff, if_false, if_true, hn]
    tauto
  have hk3 : parseState (s.set 3 .null) i = (acceptedStateOf (s.set 3 .null), none) := by
    apply (goosnapi.parseState_of_accepted _ i _).2
    rw [goosnapi.parseState_accepted_iff _ i (by simpa using h)]
    have hn : Value.isNull .null = true := rfl
    simp only [getD_set_null s 3 _ .null (show 3 < s.length by omega), not_or, not_and]
    simp only [Nat.reduceEqDiff, if_false, if_true, hn]
    tauto
  have hk12 : parseState (s.set 12 .null) i = (acceptedStateOf (s.set 12 .null), none) := by
    apply (goosnapi.parseState_of_accepted _ i _).2
    rw [goosnapi.parseState_accepted_iff _ i (by simpa using h)]
    have hn : Value.isNull .null = true := rfl
    simp only [getD_set_null s 12 _ .null (show 12 < s.length by omega), not_or, not_and]
    simp only [Nat.reduceEqDiff, if_false, if_true, hn]
    tauto
  have hk14 : parseState (s.set 14 .null) i = (acceptedStateOf (s.set 14 .null), none) := by
    apply (goosnapi.parseState_of_accepted _ i _).2
    rw [goosnapi.parseState_accepted_iff _ i (by simpa using h)]
    have hn : Value.isNull .null = true := rfl
    simp only [getD_set_null s 14 _ .null (show 14 < s.length by omega), not_or, not_and]
    simp only [Nat.reduceEqDiff, if_false, if_true, hn]
    tauto
  rw [hst, hk1, hk3, hk12, hk14]
  refine ⟨?_, ?_, ?_, ?_⟩
  · simp only [acceptedStateOf, getD_set_null s 1 _ .null (show 1 < s.length by omega)]
    simp [acceptedState, assertString]
  · simp only [acceptedStateOf, getD_set_null s 3 _ .null (show 3 < s.length by omega)]
    simp [acceptedState, assertFloat64]
  · simp only [acceptedStateOf, getD_set_null s 12 _ .null (show 12 < s.length by omega)]
    simp [acceptedState, acceptedSensors]
  · simp only [acceptedStateOf, getD_set_null s 14 _ .null (show 14 < s.length by omega)]
    simp [acceptedState, assertString]

theorem parseState_null_optional_witness :
    parseState ((jsonRecord (.string "7c7f38")).set 1 .null) 0
      = ({ (parseState (jsonRecord (.string "7c7f38")) 0).1 with CallSign := "" }, none) ∧
    parseState ((jsonRecord (.string "7c7f38")).set 3 .null) 0
      = ({ (parseState (jsonRecord (.string "7c7f38")) 0).1 with TimePosition := none }, none) ∧
    parseState ((jsonRecord (.string "7c7f38")).set 12 .null) 0
      = ({ (parseState (jsonRecord (.string "7c7f38")) 0).1 with Sensors := [] }, none) ∧
    parseState ((jsonRecord (.string "7c7f38")).set 14 .null) 0
      = ({ (parseState (jsonRecord (.string "7c7f38")) 0).1 with Squawk := "" }, none) :=
  parseState_null_optional (jsonRecord (.string "7c7f38")) 0 (by decide)
    ((goosnapi.parseState_accepted_iff _ 0 (by decide)).mpr (by
      simp [jsonRecord, Value.isString, Value.isNull, Value.isFloat64, Value.isBool]))

/-- C12 at a failing input: the JSON-decoded test record with the sensor list
[1234, 5678] in slot 12, in the shape encoding/json delivers (a
`[]interface{}` of float64). `parseState` rejects the record with the sensors
error and returns the zero State; only a `[]float64`, which the JSON decoder
never produces, is converted. -/
theorem parseState_rejects_json_sensors :
    parseState sensorsRecord 0
      = (State.zero, some (.sensors 0 (.notNumberArray sensorsFromJson))) ∧
    (parseState ((jsonRecord (.string "7c7f38")).set 12
        (.float64Slice [.finite 1234, .finite 5678])) 0).2 = none ∧
    (parseState ((jsonRecord (.string "7c7f38")).set 12
        (.float64Slice [.finite 1234, .finite 5678])) 0).1.Sensors = [1234, 5678] := by
  refine ⟨?_, ?_, ?_⟩
  · simp [parseState, sensorsRecord, sensorsFromJson, jsonRecord, parseSlots, assertString,
      assertBool, notNil, jsonNumberToInt, jsonNumberArrayToIntArray, bind, Except.bind]
  · exact (goosnapi.parseState_accepted_iff _ 0 (by decide)).mpr (by
      simp [jsonRecord, Value.isString, Value.isNull, Value.isFloat64, Value.isBool,
        Value.isFloat64Slice])
  · have hacc := (goosnapi.parseState_accepted_iff
        ((jsonRecord (.string "7c7f38")).set 12 (.float64Slice [.finite 1234, .finite 5678]))
        0 (by decide)).mpr (by
      simp [jsonRecord, Value.isString, Value.isNull, Value.isFloat64, Value.isBool,
        Value.isFloat64Slice])
    rw [(goosnapi.parseState_of_accepted _ 0 hacc).2]
    norm_num [acceptedStateOf, acceptedState, acceptedSensors, jsonRecord, F64.toInt]

/-- C13: for a record that `parseState` accepts, BarometricAltitude (slot 7),
VerticalRate (slot 11) and GeoAltitude (slot 13) are always set: to the slot's
value when the slot is a float64, to 0.0 when it is not (null included);
Longitude (slot 5), Latitude (slot 6), Velocity (slot 9) and Heading (slot 10)
are set to the slot's value when the slot is a float64 and nil when it is
not. -/
theorem parseState_default_on_absent (s : List Value) (i : Int)
    (hacc : (parseState s i).2 = none) :
    defaultsToZero (s.getD 7 .null) (parseState s i).1.BarometricAltitude ∧
    defaultsToZero (s.getD 11 .null) (parseState s i).1.VerticalRate ∧
    defaultsToZero (s.getD 13 .null) (parseState s i).1.GeoAltitude ∧
    unsetWhenAbsent (s.getD 5 .null) (parseState s i).1.Longitude ∧
    unsetWhenAbsent (s.getD 6 .null) (parseState s i).1.Latitude ∧
    unsetWhenAbsent (s.getD 9 .null) (parseState s i).1.Velocity ∧
    unsetWhenAbsent (s.getD 10 .null) (parseState s i).1.Heading := by
  have hz : ∀ v : Value, defaultsToZero v (floatOrZero v) := by
    intro v
    cases v <;> simp [defaultsToZero, floatOrZero, assertFloat64, Value.isFloat64]
  have hu : ∀ v : Value, unsetWhenAbsent v (assertFloat64 v) := by
    intro v
    cases v <;> simp [unsetWhenAbsent, assertFloat64, Value.isFloat64]
  rw [(goosnapi.parseState_of_accepted s i hacc).2]
  exact ⟨hz _, hz _, hz _, hu _, hu _, hu _, hu _⟩

/-- The JSON-decoded test record with null in slots 5, 7, 10 and 13: the
altitudes point to 0.0, Longitude and Heading are nil, and the float64 slots
6, 9 and 11 are kept. -/
theorem parseState_default_on_absent_witness :
    (parseState absentRecord 0).2 = none ∧
    (parseState absentRecord 0).1.BarometricAltitude = some (.finite 0) ∧
    (parseState absentRecord 0).1.GeoAltitude = some (.finite 0) ∧
    (parseState absentRecord 0).1.VerticalRate = some (.finite 0) ∧
    (parseState absentRecord 0).1.Longitude = none ∧
    (parseState absentRecord 0).1.Heading = none ∧
    (parseState absentRecord 0).1.Latitude = some (.finite (-37)) ∧
    (parseState absentRecord 0).1.Velocity = some (.finite 50) := by
  have hacc : (parseState absentRecord 0).2 = none :=
    (goosnapi.parseState_accepted_iff _ 0 (by decide)).mpr (by
      simp [absentRecord, jsonRecord, Value.isString, Value.isNull, Value.isFloat64,
        Value.isBool])
  have h := parseState_default_on_absent absentRecord 0 hacc
  refine ⟨hacc, h.1.2 rfl, h.2.2.1.2 rfl, h.2.1.1 _ rfl, h.2.2.2.1.2 rfl, h.2.2.2.2.2.2.2 rfl,
    h.2.2.2.2.1.1 _ rfl, h.2.2.2.2.2.1.1 _ rfl⟩

/-! ## Absent values, timestamps and successive decodes -/

/-- C14 at a failing input: the test record with null in slot 5 and the same
record with the number 0.0 in slot 5 differ in that slot only, yet
`StructureRawResponse` decodes both to the same State, with Longitude 0; the
same holds for null against 0.0 in slots 3, 6, 7, 9, 10, 11 and 13. -/
theorem structureRawResponse_conflates_null_with_zero :
    nullLongitudeRecord[5]? = some .null ∧
    zeroLongitudeRecord[5]? = some (.float64 (.finite 0)) ∧
    (∀ k : Nat, k ≠ 5 → nullLongitudeRecord[k]? = zeroLongitudeRecord[k]?) ∧
    (StructureRawResponse ⟨1643623949, [nullLongitudeRecord]⟩).States
      = (StructureRawResponse ⟨1643623949, [zeroLongitudeRecord]⟩).States ∧
    (StructureRawResponse ⟨1643623949, [nullLongitudeRecord]⟩).States.map
      (fun st => st.Longitude) = [.finite 0] ∧
    (∀ k : Nat, k = 3 ∨ k = 6 ∨ k = 7 ∨ k = 9 ∨ k = 10 ∨ k = 11 ∨ k = 13 →
      (StructureRawResponse ⟨1643623949, [wholeRecord.set k .null]⟩).States
        = (StructureRawResponse ⟨1643623949,
            [wholeRecord.set k (.float64 (.finite 0))]⟩).States) := by
  have h0 : (F64.finite 0).toInt = 0 := by
    norm_num [F64.toInt]
  refine ⟨rfl, rfl, ?_, ?_, ?_, ?_⟩
  · intro k hk
    simp only [nullLongitudeRecord, zeroLongitudeRecord, List.getElem?_set]
    have : ¬ 5 = k := fun e => hk e.symm
    simp [this]
  · simp [StructureRawResponse, structureLoop, structureState, nullLongitudeRecord,
      zeroLongitudeRecord, wholeRecord, testRecord, validateFloat64]
  · simp [StructureRawResponse, structureLoop, structureState, nullLongitudeRecord,
      wholeRecord, testRecord, validateFloat64]
  · intro k hk
    rcases hk with rfl | rfl | rfl | rfl | rfl | rfl | rfl <;>
      simp [StructureRawResponse, structureLoop, structureState, wholeRecord, testRecord,
        validateFloat64, h0]

/-- C15: for every raw response, the Time of the result of
`StructureRawResponse` is time.Unix(nsr.Time, 0); two raw responses with the
same Time get the same result Time whatever their States lists hold. -/
theorem structureRawResponse_time (nsr : NotStructuredOpenSkyResponse) :
    (StructureRawResponse nsr).Time = Time.Unix nsr.Time 0 ∧
    (StructureRawResponse nsr).Time = ⟨nsr.Time, 0, true⟩ ∧
    ∀ states : List (List Value),
      (StructureRawResponse ⟨nsr.Time, states⟩).Time = (StructureRawResponse nsr).Time := by
  refine ⟨rfl, ?_, fun _ => rfl⟩
  simp [StructureRawResponse, Time.Unix]

theorem goosnapi.parseState_jsonRecord (a : String) (i : Int) :
    parseState (jsonRecord (.string a)) i = (acceptedStateOf (jsonRecord (.string a)), none) :=
  (goosnapi.parseState_of_accepted _ i
    ((goosnapi.parseState_accepted_iff _ i (by simp [jsonRecord])).mpr (by
      simp [jsonRecord, Value.isString, Value.isNull, Value.isFloat64, Value.isBool]))).2

theorem goosnapi.parseLoop_acc (l : List (List Value)) (i : Int) (acc : List goosnapi.State)
    (out : List ParseError) :
    (parseLoop l i acc out).1 = acc ++ (parseLoop l i [] []).1 := by
  induction l generalizing i acc out with
  | nil => simp [parseLoop]
  | cons r l ih =>
    simp only [parseLoop]
    rw [ih, ih (i + 1) ([] ++ [(parseState r i).1])]
    simp

/-- C16 at a failing input: two successive decodes into the same structured
response, as in the poll loop of main, the first of a raw response holding
the record with ICAO24 "aaaaaa", the second of a raw response holding the
record with ICAO24 "bbbbbb". After the second decode the States still start
with the State of the first poll cycle; a decode of the second raw response
alone gives one State. In general the States passed in are kept in front of
the newly decoded ones. -/
theorem parseResponse_keeps_previous_states :
    ((parseNonStructuredResponseToStructureResponse ⟨2, [jsonRecord (.string "bbbbbb")]⟩
        (parseNonStructuredResponseToStructureResponse ⟨1, [jsonRecord (.string "aaaaaa")]⟩
          ⟨0, []⟩).1).1.States.map (fun st => st.ICAO24)) = ["aaaaaa", "bbbbbb"] ∧
    ((parseNonStructuredResponseToStructureResponse ⟨2, [jsonRecord (.string "bbbbbb")]⟩
        ⟨0, []⟩).1.States.map (fun st => st.ICAO24)) = ["bbbbbb"] ∧
    (parseNonStructuredResponseToStructureResponse ⟨2, [jsonRecord (.string "bbbbbb")]⟩
        (parseNonStructuredResponseToStructureResponse ⟨1, [jsonRecord (.string "aaaaaa")]⟩
          ⟨0, []⟩).1).1.Time = 2 ∧
    ∀ (nsr : NSOpenSkyResponse) (sr : OpenSkyResponse),
      (parseNonStructuredResponseToStructureResponse nsr sr).1.States
        = sr.States ++ (parseNonStructuredResponseToStructureResponse nsr ⟨0, []⟩).1.States := by
  refine ⟨?_, ?_, rfl, ?_⟩
  · simp only [parseNonStructuredResponseToStructureResponse, parseLoop,
      goosnapi.parseState_jsonRecord]
    simp [acceptedStateOf, acceptedState, jsonRecord, assertString]
  · simp only [parseNonStructuredResponseToStructureResponse, parseLoop,
      goosnapi.parseState_jsonRecord]
    simp [acceptedStateOf, acceptedState, jsonRecord, assertString]
  · intro nsr sr
    simp only [parseNonStructuredResponseToStructureResponse]
    exact goosnapi.parseLoop_acc _ _ _ _

/-! ## Record length -/

/-- C17, as stated, fails: the JSON-decoded test record followed by an
eighteenth slot has 18 slots, not 17, and `parseState` accepts it. -/
theorem parseState_exact_length_counterexample :
    longRecord.length = 18 ∧ longRecord.length ≠ 17 ∧ (parseState longRecord 0).2 = none := by
  refine ⟨rfl, by decide, ?_⟩
  exact (goosnapi.parseState_accepted_iff _ 0 (by decide)).mpr (by
    simp [longRecord, jsonRecord, Value.isString, Value.isNull, Value.isFloat64, Value.isBool])

theorem getD_take_seventeen (s : List Value) (k : Nat) (hk : k < 17) :
    (s.take 17).getD k .null = s.getD k .null := by
  simp [List.getD_eq_getElem?_getD, List.getElem?_take, hk]

/-- C17, amended: a record with fewer than 17 slots is rejected by
`parseState` for every index i; a record with more than 17 slots is not
rejected for its length: `parseState` returns for it what it returns for its
first 17 slots. -/
theorem parseState_length_rule (s : List Value) (i : Int) :
    (s.length < 17 → (parseState s i).2 ≠ none) ∧
    (17 ≤ s.length → parseState s i = parseState (s.take 17) i) := by
  constructor
  · intro h
    simp [parseState, h]
  · intro h
    have h17 : 17 ≤ (s.take 17).length := by simp [h]
    rw [goosnapi.parseState_of_length s i h, goosnapi.parseState_of_length _ i h17]
    simp only [getD_take_seventeen s _ (by decide : 0 < 17),
      getD_take_seventeen s _ (by decide : 1 < 17), getD_take_seventeen s _ (by decide : 2 < 17),
      getD_take_seventeen s _ (by decide : 3 < 17), getD_take_seventeen s _ (by decide : 4 < 17),
      getD_take_seventeen s _ (by decide : 5 < 17), getD_take_seventeen s _ (by decide : 6 < 17),
      getD_take_seventeen s _ (by decide : 7 < 17), getD_take_seventeen s _ (by decide : 8 < 17),
      getD_take_seventeen s _ (by decide : 9 < 17),
      getD_take_seventeen s _ (by decide : 10 < 17),
      getD_take_seventeen s _ (by decide : 11 < 17),
      getD_take_seventeen s _ (by decide : 12 < 17),
      getD_take_seventeen s _ (by decide : 13 < 17),
      getD_take_seventeen s _ (by decide : 14 < 17),
      getD_take_seventeen s _ (by decide : 15 < 17),
      getD_take_seventeen s _ (by decide : 16 < 17)]

/-- A record of 16 slots is rejected; the 18-slot record is decoded as the
17-slot test record. -/
theorem parseState_length_rule_witness :
    (parseState ((jsonRecord (.string "7c7f38")).take 16) 3).2 ≠ none ∧
    parseState longRecord 3 = parseState (jsonRecord (.string "7c7f38")) 3 :=
  ⟨(parseState_length_rule _ 3).1 (by decide), (parseState_length_rule longRecord 3).2 (by decide)⟩

/-! ## The prefix decoded by StructureRawResponse -/

theorem openskyapi.structureLoop_takeWhile (l : List (List Value)) :
    (structureLoop l []).map some
      = (l.takeWhile (fun r => decide (17 ≤ r.length))).map structureState := by
  induction l with
  | nil => simp [structureLoop]
  | cons r l ih =>
    by_cases h : 17 ≤ r.length
    · obtain ⟨ss, hr⟩ : ∃ ss, structureState r = some ss :=
        ⟨_, structureState_of_length r h⟩
      simp only [structureLoop, hr, List.nil_append]
      rw [structureLoop_acc, List.takeWhile_cons_of_pos (by simpa using h)]
      simp [hr, ih]
    · have hr := structureState_of_short r (by omega)
      simp only [structureLoop, hr]
      rw [List.takeWhile_cons_of_neg (by simpa using h)]
      simp

theorem openskyapi.validateString_decodes (v : Value) : decodesAsString v (validateString v) := by
  cases v <;> simp [decodesAsString, validateString, Value.isString, Value.isInt]

theorem openskyapi.validateFloat64_decodes (v : Value) :
    decodesAsFloat v (validateFloat64 v) := by
  cases v <;> simp [decodesAsFloat, validateFloat64, Value.isNumber]

theorem openskyapi.validateFloat64_toInt_decodes (v : Value) :
    decodesAsInt v (validateFloat64 v).toInt := by
  have h0 : (F64.finite 0).toInt = 0 := by
    norm_num [F64.toInt]
  cases v <;> simp [decodesAsInt, validateFloat64, Value.isNumber, h0]

theorem openskyapi.validateBool_decodes (v : Value) : decodesAsBool v (validateBool v) := by
  cases v <;> simp [decodesAsBool, validateBool, Value.isBool]

/-- C18, as stated, fails: the 17-slot test record with the int 5 in the
string slot 0 is decoded without failing, but the wrong-typed slot does not
decode to "" (nor to 0 or false): ICAO24 is "5". -/
theorem structureRawResponse_wrong_type_counterexample :
    intIcaoRecord.length = 17 ∧
    intIcaoRecord[0]? = some (.int 5) ∧
    (Value.int 5).isString = false ∧
    ∃ st, (StructureRawResponse ⟨1643623949, [intIcaoRecord]⟩).States = [st] ∧
      st.ICAO24 = "5" ∧ st.ICAO24 ≠ "" := by
  refine ⟨rfl, rfl, rfl, ?_⟩
  simp only [StructureRawResponse, structureLoop, structureState, intIcaoRecord, wholeRecord,
    testRecord]
  refine ⟨_, rfl, ?_, ?_⟩
  · simp only [List.set_cons_zero, List.getElem?_cons_zero, validateString]
    decide
  · simp only [List.set_cons_zero, List.getElem?_cons_zero, validateString]
    decide

/-- C18, amended: `StructureRawResponse` is a total function of the raw
response, and its States are the decodes of the records of the longest prefix
of nsr.States in which every record has at least 17 slots, in input order,
none of them failing. A record of at least 17 slots always decodes, whatever
its slots hold, and a shorter record never does; when every record has at
least 17 slots there is one State per record. In the State of a record of at
least 17 slots a slot of the wrong type does not fail: a string field is the
empty string unless the slot is a string (kept) or an int (its decimal text);
a float64 field is 0 unless the slot is a float64 (kept) or an int
(converted); TimePosition and LastContact are that reading truncated toward
zero, 0 for a slot that is not a number; a bool field is false unless the slot
is a bool; and PositionSource is the code-table entry of the code read from
slot 16 in the same way. -/
theorem structureRawResponse_leading_records (nsr : NotStructuredOpenSkyResponse) :
    (StructureRawResponse nsr).States.map some
      = (nsr.States.takeWhile (fun r => decide (17 ≤ r.length))).map structureState ∧
    (∀ r : List Value, 17 ≤ r.length → (structureState r).isSome = true) ∧
    (∀ r : List Value, r.length < 17 → structureState r = none) ∧
    ((∀ r ∈ nsr.States, 17 ≤ r.length) →
      (StructureRawResponse nsr).States.map some = nsr.States.map structureState ∧
      (StructureRawResponse nsr).States.length = nsr.States.length) ∧
    (∀ (r : List Value) (st : openskyapi.State), 17 ≤ r.length → structureState r = some st →
      decodesAsString (r.getD 0 .null) st.ICAO24 ∧
      decodesAsString (r.getD 1 .null) st.CallSign ∧
      decodesAsString (r.getD 2 .null) st.OriginCountry ∧
      decodesAsInt (r.getD 3 .null) st.TimePosition ∧
      decodesAsInt (r.getD 4 .null) st.LastContact ∧
      decodesAsFloat (r.getD 5 .null) st.Longitude ∧
      decodesAsFloat (r.getD 6 .null) st.Latitude ∧
      decodesAsFloat (r.getD 7 .null) st.GeoAltitude ∧
      decodesAsBool (r.getD 8 .null) st.OnGround ∧
      decodesAsFloat (r.getD 9 .null) st.Velocity ∧
      decodesAsFloat (r.getD 10 .null) st.Heading ∧
      decodesAsFloat (r.getD 11 .null) st.VerticalRate ∧
      decodesAsFloat (r.getD 13 .null) st.BarometricAltitude ∧
      decodesAsString (r.getD 14 .null) st.Squawk ∧
      decodesAsBool (r.getD 15 .null) st.Spi ∧
      ∃ code : Int, decodesAsInt (r.getD 16 .null) code ∧
        st.PositionSource = mapIndex PositionSource code) := by
  have hmain := structureLoop_takeWhile nsr.States
  refine ⟨hmain, ?_, structureState_of_short, ?_, ?_⟩
  · intro r h
    rw [structureState_of_length r h]
    rfl
  · intro hall
    have htw : nsr.States.takeWhile (fun r => decide (17 ≤ r.length)) = nsr.States := by
      rw [List.takeWhile_eq_self_iff]
      intro r hr
      simpa using hall r hr
    have h1 : (StructureRawResponse nsr).States.map some = nsr.States.map structureState := by
      simp only [StructureRawResponse]
      rw [hmain, htw]
    refine ⟨h1, ?_⟩
    have := congrArg List.length h1
    simpa using this
  · intro r st h hst
    rw [structureState_of_length r h] at hst
    cases hst
    exact ⟨validateString_decodes _, validateString_decodes _, validateString_decodes _,
      validateFloat64_toInt_decodes _, validateFloat64_toInt_decodes _,
      validateFloat64_decodes _, validateFloat64_decodes _, validateFloat64_decodes _,
      validateBool_decodes _, validateFloat64_decodes _, validateFloat64_decodes _,
      validateFloat64_decodes _, validateFloat64_decodes _, validateString_decodes _,
      validateBool_decodes _, _, validateFloat64_toInt_decodes _, rfl⟩

/-- A batch of a wrong-typed 17-slot record, the test record, a 3-slot record
and the test record again: two States; a batch of two 17-slot records gives
two States; and the State of the wrong-typed record (every slot of another
dynamic type) has "" in ICAO24, 0 in Longitude and TimePosition and false in
OnGround. -/
theorem structureRawResponse_leading_records_witness :
    (StructureRawResponse ⟨7, [List.replicate 17 (.other 0), wholeRecord,
        [.null, .null, .null], wholeRecord]⟩).States.map some
      = [structureState (List.replicate 17 (.other 0)), structureState wholeRecord] ∧
    (StructureRawResponse ⟨7, [List.replicate 17 (.other 0), wholeRecord]⟩).States.length
      = 2 ∧
    (∀ st : openskyapi.State, structureState (List.replicate 17 (.other 0)) = some st →
      st.ICAO24 = "" ∧ st.Longitude = .finite 0 ∧ st.TimePosition = 0 ∧ st.OnGround = false) :=
  ⟨(structureRawResponse_leading_records ⟨7, [List.replicate 17 (.other 0), wholeRecord,
      [.null, .null, .null], wholeRecord]⟩).1.trans (by
        simp [List.takeWhile, wholeRecord, testRecord]),
   ((structureRawResponse_leading_records ⟨7, [List.replicate 17 (.other 0), wholeRecord]⟩).2.2.2.1
      (by simp [wholeRecord, testRecord])).2,
   fun st hst =>
     have h := (structureRawResponse_leading_records ⟨7, []⟩).2.2.2.2
       (List.replicate 17 (.other 0)) st (by simp) hst
     ⟨h.1.2.2 rfl rfl, h.2.2.2.2.2.1.2.2 rfl, h.2.2.2.1.2.2 rfl, h.2.2.2.2.2.2.2.2.1.2 rfl⟩⟩

/-! ## The altitude slots and the position-source fallback -/

/-- C19 at a failing input: the JSON-decoded test record, accepted by
`parseState`, with the float64 403 in slot 7 and the float64 312 in slot 13.
`parseState` decodes GeoAltitude from slot 13 and BarometricAltitude from
slot 7; `StructureRawResponse` decodes GeoAltitude from slot 7 and
BarometricAltitude from slot 13. -/
theorem altitude_slots_disagree :
    (jsonRecord (.string "7c7f38")).length = 17 ∧
    (parseState (jsonRecord (.string "7c7f38")) 0).2 = none ∧
    (jsonRecord (.string "7c7f38"))[7]? = some (.float64 (.finite 403)) ∧
    (jsonRecord (.string "7c7f38"))[13]? = some (.float64 (.finite 312)) ∧
    (parseState (jsonRecord (.string "7c7f38")) 0).1.GeoAltitude = some (.finite 312) ∧
    (parseState (jsonRecord (.string "7c7f38")) 0).1.BarometricAltitude = some (.finite 403) ∧
    (StructureRawResponse ⟨1643623949, [jsonRecord (.string "7c7f38")]⟩).States.map
      (fun st => (st.GeoAltitude, st.BarometricAltitude)) = [(.finite 403, .finite 312)] := by
  rw [goosnapi.parseState_jsonRecord]
  refine ⟨rfl, rfl, rfl, rfl, ?_, ?_, ?_⟩
  · simp [acceptedStateOf, acceptedState, jsonRecord, floatOrZero, assertFloat64]
  · simp [acceptedStateOf, acceptedState, jsonRecord, floatOrZero, assertFloat64]
  · simp [StructureRawResponse, structureLoop, structureState, jsonRecord, validateFloat64]

/-- C20: a record of at least 17 slots whose slot 16 is not a number (null, a
string, a boolean or any other non-numeric value) is decoded without a panic;
its code is read as 0 and its State has PositionSource "ADSB", not the empty
string. When the records before it have at least 17 slots too, that State is
the entry of the result at the index of the record. -/
theorem structureRawResponse_non_number_code (t : Int) (pre post : List (List Value))
    (s : List Value) (v : Value)
    (hpre : ∀ r ∈ pre, 17 ≤ r.length) (hs : 17 ≤ s.length)
    (h16 : s[16]? = some v) (hv : v.isNumber = false) :
    ∃ st, structureState s = some st ∧
      (StructureRawResponse ⟨t, pre ++ s :: post⟩).States[pre.length]? = some st ∧
      (validateFloat64 v).toInt = 0 ∧
      st.PositionSource = "ADSB" ∧ st.PositionSource ≠ "" := by
  have hst := structureState_of_length s hs
  have hg : s.getD 16 .null = v := by
    rw [List.getD_eq_getElem?_getD, h16]; rfl
  have h0 : (F64.finite 0).toInt = 0 := by
    norm_num [F64.toInt]
  have hz : (validateFloat64 v).toInt = 0 := by
    cases v <;> simp [Value.isNumber] at hv <;> simpa [validateFloat64] using h0
  refine ⟨_, hst, structureRawResponse_getElem? t pre post s _ hpre hst, hz, ?_, ?_⟩
  · simp only [hg, hz]
    rfl
  · simp only [hg, hz]
    decide

theorem structureRawResponse_non_number_code_witness :
    ∃ st, structureState (wholeRecord.set 16 (.string "3")) = some st ∧
      (StructureRawResponse ⟨5, [wholeRecord] ++ wholeRecord.set 16 (.string "3") :: []⟩).States[1]?
        = some st ∧
      (validateFloat64 (.string "3")).toInt = 0 ∧
      st.PositionSource = "ADSB" ∧ st.PositionSource ≠ "" :=
  structureRawResponse_non_number_code 5 [wholeRecord] [] _ (.string "3")
    (by simp [wholeRecord, testRecord]) (by simp [wholeRecord, testRecord])
    (by simp [wholeRecord, testRecord]) rfl

/-! ## One State per raw record -/

theorem goosnapi.parseLoop_states (l : List (List Value)) (n : Nat) (acc : List goosnapi.State)
    (out : List ParseError) :
    (parseLoop l (n : Int) acc out).1
      = acc ++ (l.enumFrom n).map (fun p => (parseState p.2 (p.1 : Int)).1) := by
  induction l generalizing n acc out with
  | nil => simp [parseLoop]
  | cons r l ih =>
    simp only [parseLoop, List.enumFrom_cons, List.map_cons]
    have hn : (n : Int) + 1 = ((n + 1 : Nat) : Int) := by push_cast; rfl
    rw [hn, ih]
    simp

theorem goosnapi.parseState_zero_of_error (s : List Value) (i : Int)
    (h : (parseState s i).2 ≠ none) : (parseState s i).1 = State.zero := by
  by_cases hl : s.length < 17
  · simp [parseState, hl]
  · rw [goosnapi.parseState_of_length s i (by omega)] at h ⊢
    cases hps : parseSlots i (s.getD 0 .null) (s.getD 1 .null) (s.getD 2 .null)
      (s.getD 3 .null) (s.getD 4 .null) (s.getD 5 .null) (s.getD 6 .null) (s.getD 7 .null)
      (s.getD 8 .null) (s.getD 9 .null) (s.getD 10 .null) (s.getD 11 .null) (s.getD 12 .null)
      (s.getD 13 .null) (s.getD 14 .null) (s.getD 15 .null) (s.getD 16 .null) with
    | error e => rfl
    | ok st => rw [hps] at h; simp at h

/-- C21: `parseNonStructuredResponseToStructureResponse` appends one State per
raw record. For every raw response and every prior structured response, the
States afterwards are the prior States followed, in order, by the State that
`parseState` returns for each record with its index; their number is the
prior number plus the number of records; the State `parseState` returns with
an error is the zero State; and Time is the raw Time. -/
theorem parseResponse_appends_one_state_per_record (nsr : NSOpenSkyResponse)
    (sr : OpenSkyResponse) :
    (parseNonStructuredResponseToStructureResponse nsr sr).1.States
      = sr.States ++ nsr.States.enum.map (fun p => (parseState p.2 (p.1 : Int)).1) ∧
    (parseNonStructuredResponseToStructureResponse nsr sr).1.States.length
      = sr.States.length + nsr.States.length ∧
    (∀ (k : Nat) (r : List Value), nsr.States[k]? = some r →
      (parseNonStructuredResponseToStructureResponse nsr sr).1.States[sr.States.length + k]?
        = some (parseState r (k : Int)).1) ∧
    (∀ (s : List Value) (i : Int), (parseState s i).2 ≠ none → (parseState s i).1 = State.zero) ∧
    (parseNonStructuredResponseToStructureResponse nsr sr).1.Time = nsr.Time := by
  have hS : (parseNonStructuredResponseToStructureResponse nsr sr).1.States
      = sr.States ++ nsr.States.enum.map (fun p => (parseState p.2 (p.1 : Int)).1) := by
    simp only [parseNonStructuredResponseToStructureResponse, List.enum]
    exact goosnapi.parseLoop_states nsr.States 0 sr.States []
  refine ⟨hS, ?_, ?_, goosnapi.parseState_zero_of_error, rfl⟩
  · rw [hS]
    simp [List.enum]
  · intro k r hk
    rw [hS, List.getElem?_append_right (by omega)]
    simp [List.enum, List.getElem?_enumFrom, hk]

/-- A prior States list holding one State, then a batch of a rejected record
(a number in slot 0) and the JSON-decoded test record: three States, the
prior one, the zero State, and the decode of the test record at index 1. -/
theorem parseResponse_appends_one_state_per_record_witness :
    (parseNonStructuredResponseToStructureResponse
        ⟨1643623949, [jsonRecord (.float64 (.finite 7)), jsonRecord (.string "7c7f38")]⟩
        ⟨5, [acceptedStateOf (jsonRecord (.string "aaaaaa"))]⟩).1.States
      = [acceptedStateOf (jsonRecord (.string "aaaaaa")), State.zero,
         (parseState (jsonRecord (.string "7c7f38")) 1).1] ∧
    (parseNonStructuredResponseToStructureResponse
        ⟨1643623949, [jsonRecord (.float64 (.finite 7)), jsonRecord (.string "7c7f38")]⟩
        ⟨5, [acceptedStateOf (jsonRecord (.string "aaaaaa"))]⟩).1.Time = 1643623949 := by
  have h := parseResponse_appends_one_state_per_record
    ⟨1643623949, [jsonRecord (.float64 (.finite 7)), jsonRecord (.string "7c7f38")]⟩
    ⟨5, [acceptedStateOf (jsonRecord (.string "aaaaaa"))]⟩
  have hbad : (parseState (jsonRecord (.float64 (.finite 7))) 0).1 = State.zero :=
    h.2.2.2.1 _ 0 (by
      simp [parseState, jsonRecord, parseSlots, assertString, bind, Except.bind])
  refine ⟨?_, h.2.2.2.2⟩
  rw [h.1]
  simp [List.enum, List.enumFrom, hbad]
